import Mathlib

/-
Verification development for the external calendar synchronization and
reconciliation engine of the Life-Planner backend (modules
workout/calendar_sync.py, workout/caldav_sync.py, workout/calendar_routes.py,
workout/apple_calendar_routes.py).

The Python code is shallowly embedded: every network call is represented by
the response the provider would give (an explicit argument), datetimes are a
civil-time record, JSON values are an inductive type, and Python exceptions
are an Except layer.  Library functions used by the source (json.loads,
str.lower, datetime.fromisoformat plus astimezone, urlparse) are modelled by
executable Lean functions or, where a claim does not depend on their internals
(ISO parsing and timezone conversion, JSON text parsing), by explicit function
parameters quantified in the theorems.
-/

-- ==========================================================================
-- Python-semantics helpers (strings, truthiness, JSON values)
-- ==========================================================================

/-- Lowercasing of one character as Python str.lower does it, covering ASCII
plus the accented uppercase letters that can occur in the French calendar
names this code compares against.  (Full Unicode case folding is not
modelled; it is not exercised by anything in these modules.) -/
def pyLowerChar (c : Char) : Char :=
  match c with
  | 'É' => 'é'
  | 'È' => 'è'
  | 'Ê' => 'ê'
  | 'Ë' => 'ë'
  | 'À' => 'à'
  | 'Â' => 'â'
  | 'Ç' => 'ç'
  | 'Î' => 'î'
  | 'Ï' => 'ï'
  | 'Ô' => 'ô'
  | 'Û' => 'û'
  | 'Ù' => 'ù'
  | _ => c.toLower

/-- Model of Python str.lower. -/
def py_lower (s : String) : String := ⟨s.data.map pyLowerChar⟩

/-- Whitespace test used by Python str.strip with no argument. -/
def is_ws (c : Char) : Bool := c = ' ' || c = '\t' || c = '\n' || c = '\r' || c = '\x0b' || c = '\x0c'

/-- Model of Python str.strip(). -/
def py_strip (s : String) : String :=
  ⟨((s.data.dropWhile is_ws).reverse.dropWhile is_ws).reverse⟩

/-- Membership of pat as a contiguous substring, modelling Python `in`. -/
def containsL (pat : List Char) : List Char → Bool
  | [] => pat = []
  | c :: rest => pat.isPrefixOf (c :: rest) || containsL pat rest

/-- Model of the Python expression `pat in s` on strings. -/
def py_in (pat s : String) : Bool := containsL pat.data s.data

/-- Model of Python str.startswith. -/
def py_startswith (pre s : String) : Bool := pre.data.isPrefixOf s.data

/-- Replacement of every occurrence of one character, modelling the calls
`s.replace("Z", "+00:00")` and `description.replace("\n", "\\n")` (both
source patterns are single characters). -/
def py_replace_char (target : Char) (rep : String) (s : String) : String :=
  ⟨go s.data⟩
where
  go : List Char → List Char
    | [] => []
    | c :: cs => if c = target then rep.data ++ go cs else c :: go cs

/-- Digit test for the int() model. -/
def is_digit (c : Char) : Bool := Nat.ble '0'.toNat c.toNat && Nat.ble c.toNat '9'.toNat

/-- Digits-to-number accumulator for the int() model. -/
def digits_val : List Char → Nat → Nat
  | [], acc => acc
  | c :: cs, acc => digits_val cs (acc * 10 + (c.toNat - '0'.toNat))

/-- Model of Python int(s) on strings: surrounding whitespace is allowed, an
optional sign, then at least one ASCII digit; anything else raises ValueError
(here: none).  Underscored and non-ASCII digit literals are not modelled. -/
def py_int_of_string (s : String) : Option Int :=
  let t := (py_strip s).data
  let core : List Char × Bool :=
    match t with
    | '-' :: rest => (rest, true)
    | '+' :: rest => (rest, false)
    | other => (other, false)
  if core.1 = [] then none
  else if core.1.all is_digit then
    let v : Int := Int.ofNat (digits_val core.1 0)
    some (if core.2 then -v else v)
  else none

/-- JSON values as produced by json.loads.  Arrays and objects are encoded on
the constructor spine (arrCons / objCons) so that equality is derivable;
values produced by a real parse are always proper spines (an arrCons tail is
again an array value, an objCons tail again an object value). -/
inductive JVal where
  | null
  | bool (b : Bool)
  | num (n : Int)
  | str (s : String)
  | arrNil
  | arrCons (head tail : JVal)
  | objNil
  | objCons (key : String) (value tail : JVal)
deriving DecidableEq

/-- Array check, modelling isinstance(x, list). -/
def JVal.isArr : JVal → Bool
  | .arrNil => true
  | .arrCons _ _ => true
  | _ => false

/-- Object check, modelling isinstance(x, dict). -/
def JVal.isObj : JVal → Bool
  | .objNil => true
  | .objCons _ _ _ => true
  | _ => false

/-- Elements of an array value. -/
def JVal.elems : JVal → List JVal
  | .arrCons h t => h :: t.elems
  | _ => []

/-- Array value from a list. -/
def JVal.mkArr (xs : List JVal) : JVal := xs.foldr .arrCons .arrNil

/-- Object value from an association list. -/
def JVal.mkObj (kvs : List (String × JVal)) : JVal :=
  kvs.foldr (fun kv t => .objCons kv.1 kv.2 t) .objNil

/-- First binding of a key on an object spine (keys from json.loads are
unique, so first-match equals Python dict lookup). -/
def JVal.assoc : JVal → String → Option JVal
  | .objCons k v t, key => if k = key then some v else t.assoc key
  | _, _ => none

/-- Model of Python truthiness on JSON values. -/
def jTruthy : JVal → Bool
  | .null => false
  | .bool b => b
  | .num n => n != 0
  | .str s => s != ""
  | .arrNil => false
  | .arrCons _ _ => true
  | .objNil => false
  | .objCons _ _ _ => true

/-- Truthiness of an optional JSON value (Python None is falsy). -/
def oTruthy : Option JVal → Bool
  | none => false
  | some v => jTruthy v

/-- Truthiness of an optional string column (None and the empty string are
falsy). -/
def osTruthy : Option String → Bool
  | none => false
  | some s => s != ""

/-- Python exceptions are carried as their message. -/
abbrev PyErr := String

/-- Model of `value.get(key)`: an AttributeError is raised when the receiver
is not a dict, otherwise the binding (or None) is returned. -/
def pyGet (v : JVal) (k : String) : Except PyErr (Option JVal) :=
  if v.isObj then .ok (v.assoc k) else .error ("AttributeError: get on non-dict " ++ k)

mutual

/-- Model of Python repr, as far as str() of lists and dicts needs it.  String
escaping inside repr is not modelled (no claim exercises it). -/
def pyRepr : JVal → String
  | .null => "None"
  | .bool b => if b then "True" else "False"
  | .num n => toString n
  | .str s => "\x27" ++ s ++ "\x27"
  | .arrNil => "[]"
  | .arrCons h t => "[" ++ pyRepr h ++ pyReprArrTail t ++ "]"
  | .objNil => "\x7b\x7d"
  | .objCons k v t => "\x7b\x27" ++ k ++ "\x27: " ++ pyRepr v ++ pyReprObjTail t ++ "\x7d"

/-- Remaining elements of an array repr. -/
def pyReprArrTail : JVal → String
  | .arrCons h t => ", " ++ pyRepr h ++ pyReprArrTail t
  | _ => ""

/-- Remaining bindings of a dict repr. -/
def pyReprObjTail : JVal → String
  | .objCons k v t => ", \x27" ++ k ++ "\x27: " ++ pyRepr v ++ pyReprObjTail t
  | _ => ""

end

/-- Model of Python str() on JSON values. -/
def pyStr : JVal → String
  | .str s => s
  | v => pyRepr v

/-- Model of Python int() on JSON values: ints pass through, booleans are 0/1,
numeric strings are parsed, everything else raises (none).  JSON floats are
outside the model (the recurrence data carries ints and strings). -/
def pyInt : JVal → Option Int
  | .num n => some n
  | .bool b => some (if b then 1 else 0)
  | .str s => py_int_of_string s
  | _ => none

/-- Join with a separator, modelling str.join. -/
def join_sep (sep : String) : List String → String
  | [] => ""
  | [x] => x
  | x :: y :: rest => x ++ sep ++ join_sep sep (y :: rest)

-- ==========================================================================
-- Civil datetimes (naive Python datetime, seconds resolution)
-- ==========================================================================

/-- Naive Python datetime at seconds resolution. -/
structure PyDateTime where
  year : Nat
  month : Nat
  day : Nat
  hour : Nat
  minute : Nat
  second : Nat
deriving DecidableEq

/-- Two-digit zero padding, as strftime and isoformat produce. -/
def pad2 (n : Nat) : String := if n < 10 then "0" ++ toString n else toString n

/-- Four-digit zero padding for years. -/
def pad4 (n : Nat) : String :=
  if n < 10 then "000" ++ toString n
  else if n < 100 then "00" ++ toString n
  else if n < 1000 then "0" ++ toString n
  else toString n

/-- Gregorian leap-year rule. -/
def is_leap (y : Nat) : Bool := (y % 4 == 0 && y % 100 != 0) || y % 400 == 0

/-- Days in a month. -/
def days_in_month (y m : Nat) : Nat :=
  if m = 2 then (if is_leap y then 29 else 28)
  else if m = 4 ∨ m = 6 ∨ m = 9 ∨ m = 11 then 30
  else 31

/-- Model of `dt + timedelta(minutes=m)` with a single day rollover, which is
exact for the 60- and 90-minute offsets the source uses. -/
def add_minutes (dt : PyDateTime) (m : Nat) : PyDateTime :=
  let t := dt.minute + m
  let mi := t % 60
  let h := dt.hour + t / 60
  let hh := h % 24
  let d := dt.day + h / 24
  if d > days_in_month dt.year dt.month then
    if dt.month = 12 then ⟨dt.year + 1, 1, d - days_in_month dt.year dt.month, hh, mi, dt.second⟩
    else ⟨dt.year, dt.month + 1, d - days_in_month dt.year dt.month, hh, mi, dt.second⟩
  else ⟨dt.year, dt.month, d, hh, mi, dt.second⟩

/-- Model of datetime.isoformat() on a naive datetime with zero microseconds. -/
def py_isoformat (dt : PyDateTime) : String :=
  pad4 dt.year ++ "-" ++ pad2 dt.month ++ "-" ++ pad2 dt.day ++ "T" ++
    pad2 dt.hour ++ ":" ++ pad2 dt.minute ++ ":" ++ pad2 dt.second

/-- Model of dt.strftime("%Y%m%dT%H%M%S") as used by the iCalendar builder. -/
def strftime_compact (dt : PyDateTime) : String :=
  pad4 dt.year ++ pad2 dt.month ++ pad2 dt.day ++ "T" ++
    pad2 dt.hour ++ pad2 dt.minute ++ pad2 dt.second

-- ==========================================================================
-- HTTP responses
-- ==========================================================================

/-- An httpx response as the code observes it: status code, the outcome of
response.json() (error when the body is not JSON), and response.text. -/
structure HttpResp where
  status : Nat
  json : Except Unit JVal
  text : String

-- ==========================================================================
-- calendar_sync.py : OAuth refresh, recurrence translation, event documents,
-- event transport, sync orchestrator (Google / REST provider)
-- ==========================================================================

/-- Embedding of refresh_access_token (calendar_sync.py 92-122): the token
endpoint response is the explicit argument; any non-200 status raises
ValueError with the provider body, otherwise the JSON body is returned.
The client_id/client_secret configuration guard is assumed satisfied. -/
def refresh_access_token (resp : HttpResp) : Except PyErr JVal :=
  if resp.status ≠ 200 then .error ("Failed to refresh token: " ++ resp.text)
  else match resp.json with
    | .ok v => .ok v
    | .error _ => .error "JSONDecodeError"

/-- Weekday-name table of build_google_calendar_recurrence (French and
English names to iCalendar codes). -/
def day_mapping : List (String × String) :=
  [("monday", "MO"), ("tuesday", "TU"), ("wednesday", "WE"), ("thursday", "TH"),
   ("friday", "FR"), ("saturday", "SA"), ("sunday", "SU"),
   ("lundi", "MO"), ("mardi", "TU"), ("mercredi", "WE"), ("jeudi", "TH"),
   ("vendredi", "FR"), ("samedi", "SA"), ("dimanche", "SU")]

/-- Embedding of build_google_calendar_recurrence (calendar_sync.py 129-216).
The json.loads library call is the explicit parameter loads (an error value
is a parse failure caught by the source's except branch).  recurrence_data
is the raw Optional[str] column. -/
def build_google_calendar_recurrence (loads : String → Except Unit JVal)
    (recurrence_type recurrence_data : Option String) : Option (List String) :=
  match recurrence_type with
  | none => none
  | some t =>
    if t = "" then none
    else if t = "daily" then some ["RRULE:FREQ=DAILY"]
    else if t = "weekly" then
      match recurrence_data with
      | none => some ["RRULE:FREQ=WEEKLY"]
      | some s =>
        if s = "" then some ["RRULE:FREQ=WEEKLY"]
        else match loads s with
          | .error _ => some ["RRULE:FREQ=WEEKLY"]
          | .ok v =>
            if v.isArr = false ∨ v.elems = [] then some ["RRULE:FREQ=WEEKLY"]
            else
              let byday := v.elems.filterMap fun d => day_mapping.lookup (py_lower (pyStr d))
              if byday = [] then some ["RRULE:FREQ=WEEKLY"]
              else some ["RRULE:FREQ=WEEKLY;BYDAY=" ++ join_sep "," byday]
    else if t = "monthly" then
      match recurrence_data with
      | none => some ["RRULE:FREQ=MONTHLY"]
      | some s =>
        if s = "" then some ["RRULE:FREQ=MONTHLY"]
        else match loads s with
          | .error _ => some ["RRULE:FREQ=MONTHLY"]
          | .ok v =>
            if v.isArr = false ∨ v.elems = [] then some ["RRULE:FREQ=MONTHLY"]
            else
              let monthdays := v.elems.filterMap fun d =>
                match pyInt d with
                | some n => if 1 ≤ n ∧ n ≤ 31 then some (toString n) else none
                | none => none
              if monthdays = [] then some ["RRULE:FREQ=MONTHLY"]
              else some ["RRULE:FREQ=MONTHLY;BYMONTHDAY=" ++ join_sep "," monthdays]
    else none

/-- One exercise dict as the route handlers build it: name is always present,
sets/reps/weight hold the DB values (None possible). -/
structure ExRow where
  name : String
  sets : Option JVal
  reps : Option JVal
  weight : Option JVal
deriving DecidableEq

/-- Detail fragments of one exercise line of build_session_description. -/
def ex_details (ex : ExRow) : List String :=
  (match ex.sets with
    | some v => if jTruthy v then [pyStr v ++ " séries"] else []
    | none => []) ++
  (match ex.reps with
    | some v => if jTruthy v then [pyStr v ++ " reps"] else []
    | none => []) ++
  (match ex.weight with
    | some v => if jTruthy v then [pyStr v ++ "kg"] else []
    | none => [])

/-- One numbered exercise line of the description builders. -/
def ex_line (idx : Nat) (ex : ExRow) : String :=
  let ds := ex_details ex
  let detail := if ds = [] then "" else " → " ++ join_sep ", " ds
  toString idx ++ ". " ++ ex.name ++ detail

/-- Embedding of build_session_description (calendar_sync.py 366-423). -/
def build_session_description (session_id : Int) (activity_types : List String)
    (exercises : List ExRow) (frontend_url : String) : String :=
  let l1 :=
    if activity_types = [] then []
    else ["════════════════════", "📋 ACTIVITÉS", "════════════════════"] ++
      activity_types.map (fun a => "- " ++ a) ++ [""]
  let l2 :=
    if exercises = [] then []
    else ["════════════════════", "💪 EXERCICES PLANIFIÉS", "════════════════════"] ++
      ((exercises.take 10).enum.map fun p => ex_line (p.1 + 1) p.2) ++
      (if exercises.length > 10 then
        ["... et " ++ toString (exercises.length - 10) ++ " exercice(s) supplémentaire(s)"]
      else []) ++ [""]
  let l3 := ["════════════════════", "🚀 LANCER LA SÉANCE", "════════════════════",
    frontend_url ++ "/workout/sessions/" ++ toString session_id, ""]
  join_sep "\n" (l1 ++ l2 ++ l3)

/-- Embedding of the event body built inside create_calendar_event
(calendar_sync.py 246-271): the missing end time defaults to start plus 90
minutes and the recurrence array is attached only when truthy. -/
def build_google_event_body (title description : String) (start_time : PyDateTime)
    (end_time : Option PyDateTime) (recurrence : Option (List String)) : JVal :=
  let e := end_time.getD (add_minutes start_time 90)
  let base :=
    [("summary", JVal.str title), ("description", JVal.str description),
     ("colorId", JVal.str "11"),
     ("start", JVal.mkObj [("dateTime", JVal.str (py_isoformat start_time)),
       ("timeZone", JVal.str "Europe/Paris")]),
     ("end", JVal.mkObj [("dateTime", JVal.str (py_isoformat e)),
       ("timeZone", JVal.str "Europe/Paris")]),
     ("reminders", JVal.mkObj [("useDefault", JVal.bool false),
       ("overrides", JVal.mkArr [JVal.mkObj [("method", JVal.str "popup"),
         ("minutes", JVal.num 30)]])])]
  let withRec :=
    match recurrence with
    | some r => if r = [] then base else base ++ [("recurrence", JVal.mkArr (r.map JVal.str))]
    | none => base
  JVal.mkObj withRec

/-- Embedding of create_calendar_event (calendar_sync.py 223-283).  The HTTP
POST is modelled by the function send from request body to response; a status
outside 200/201 raises ValueError, otherwise response.json() is returned. -/
def create_calendar_event (send : JVal → HttpResp) (title description : String)
    (start_time : PyDateTime) (end_time : Option PyDateTime)
    (recurrence : Option (List String)) : Except PyErr JVal :=
  let body := build_google_event_body title description start_time end_time recurrence
  let resp := send body
  if resp.status = 200 ∨ resp.status = 201 then
    match resp.json with
    | .ok v => .ok v
    | .error _ => .error "JSONDecodeError"
  else .error ("Failed to create event: " ++ resp.text)

/-- Embedding of the event body built inside update_calendar_event
(calendar_sync.py 302-330).  The pytz localisation of the start and end times
to Europe/Paris followed by isoformat is the explicit parameter
paris_localize (DST arithmetic is not re-implemented; no claim depends on
it).  The update body carries no reminders block. -/
def build_google_update_body (paris_localize : PyDateTime → String)
    (title description : String) (start_time : PyDateTime)
    (end_time : Option PyDateTime) (recurrence : Option (List String)) : JVal :=
  let e := end_time.getD (add_minutes start_time 90)
  let base :=
    [("summary", JVal.str title), ("description", JVal.str description),
     ("colorId", JVal.str "11"),
     ("start", JVal.mkObj [("dateTime", JVal.str (paris_localize start_time)),
       ("timeZone", JVal.str "Europe/Paris")]),
     ("end", JVal.mkObj [("dateTime", JVal.str (paris_localize e)),
       ("timeZone", JVal.str "Europe/Paris")])]
  let withRec :=
    match recurrence with
    | some r => if r = [] then base else base ++ [("recurrence", JVal.mkArr (r.map JVal.str))]
    | none => base
  JVal.mkObj withRec

/-- Embedding of update_calendar_event (calendar_sync.py 286-342): only a 200
status is a success. -/
def update_calendar_event (send : JVal → HttpResp) (paris_localize : PyDateTime → String)
    (title description : String) (start_time : PyDateTime)
    (end_time : Option PyDateTime) (recurrence : Option (List String)) : Except PyErr JVal :=
  let body := build_google_update_body paris_localize title description start_time end_time recurrence
  let resp := send body
  if resp.status = 200 then
    match resp.json with
    | .ok v => .ok v
    | .error _ => .error "JSONDecodeError"
  else .error ("Failed to update event: " ++ resp.text)

/-- Embedding of delete_calendar_event (calendar_sync.py 345-359): the
returned success flag is exactly status == 204. -/
def delete_calendar_event (resp : HttpResp) : Bool :=
  resp.status == 204

/-- Responses the REST-provider orchestrator can consume for one session:
the token refresh response and the create/update transport (as functions of
the request body). -/
structure GoogleWorld where
  refreshResp : HttpResp
  createSend : JVal → HttpResp
  updateSend : JVal → HttpResp

/-- Body of the try block of sync_session_to_calendar (calendar_sync.py
452-492), as the callers in calendar_routes.py invoke it (the extra
recurrence_exceptions argument those callers pass is absent from the
orchestrator's signature in this module and is dropped here). -/
def sync_session_to_calendar_try (loads : String → Except Unit JVal)
    (paris_localize : PyDateTime → String) (w : GoogleWorld) (frontend_url : String)
    (session_id : Int) (session_name : String) (activity_types : List String)
    (scheduled_at : PyDateTime) (exercises : List ExRow)
    (existing_event_id : Option JVal)
    (recurrence_type recurrence_data : Option String) : Except PyErr (Option JVal) :=
  match refresh_access_token w.refreshResp with
  | .error e => .error e
  | .ok tokens =>
    match pyGet tokens "access_token" with
    | .error e => .error e
    | .ok access_token =>
      if oTruthy access_token = false then .ok none
      else
        let description := build_session_description session_id activity_types exercises frontend_url
        let recurrence := build_google_calendar_recurrence loads recurrence_type recurrence_data
        let result :=
          if oTruthy existing_event_id then
            update_calendar_event w.updateSend paris_localize session_name description
              scheduled_at none recurrence
          else
            create_calendar_event w.createSend session_name description
              scheduled_at none recurrence
        match result with
        | .error e => .error e
        | .ok r => pyGet r "id"

/-- Embedding of sync_session_to_calendar (calendar_sync.py 426-497): any
exception in the try body is swallowed and the stored event id is returned
unchanged. -/
def sync_session_to_calendar (loads : String → Except Unit JVal)
    (paris_localize : PyDateTime → String) (w : GoogleWorld) (frontend_url : String)
    (session_id : Int) (session_name : String) (activity_types : List String)
    (scheduled_at : PyDateTime) (exercises : List ExRow)
    (existing_event_id : Option JVal)
    (recurrence_type recurrence_data : Option String) : Option JVal :=
  match sync_session_to_calendar_try loads paris_localize w frontend_url session_id
    session_name activity_types scheduled_at exercises existing_event_id
    recurrence_type recurrence_data with
  | .ok v => v
  | .error _ => existing_event_id

-- ==========================================================================
-- caldav_sync.py : iCalendar documents, CalDAV transport and orchestrator
-- ==========================================================================

/-- Embedding of build_icalendar_event (caldav_sync.py 193-237).  The
datetime.utcnow() read is the explicit argument now; the three stamp fields
(CREATED, DTSTAMP, LAST-MODIFIED) are rendered from it.  Newlines in the
description are escaped as literal backslash-n. -/
def build_icalendar_event (uid title description : String)
    (start_time end_time : PyDateTime) (now : PyDateTime) : String :=
  let escaped := py_replace_char '\n' "\\n" description
  "BEGIN:VCALENDAR\nCALSCALE:GREGORIAN\nPRODID:-//Life Planner//Workout Sessions//FR\nVERSION:2.0\nBEGIN:VEVENT\nUID:" ++
    uid ++ "\nCREATED:" ++ strftime_compact now ++ "Z\nDTSTAMP:" ++
    strftime_compact now ++ "Z\nDTSTART;TZID=Europe/Paris:" ++
    strftime_compact start_time ++ "\nDTEND;TZID=Europe/Paris:" ++
    strftime_compact end_time ++ "\nLAST-MODIFIED:" ++ strftime_compact now ++
    "Z\nSEQUENCE:0\nSUMMARY:" ++ title ++ "\nDESCRIPTION:" ++ escaped ++
    "\nCATEGORIES:Sport,Entraînement\nX-APPLE-CALENDAR-COLOR:#FF3B30\nX-APPLE-LOCAL-DEFAULT-ALARM:PT30M\nBEGIN:VALARM\nACTION:DISPLAY\nDESCRIPTION:Reminder\nTRIGGER:-PT30M\nEND:VALARM\nEND:VEVENT\nEND:VCALENDAR\n"

/-- Embedding of create_caldav_event (caldav_sync.py 240-283): a fresh uid
(the uuid4() draw is the explicit argument) names the event URL, the PUT is
modelled by putSend on the rendered document, statuses 200/201/204 succeed
and the uid is returned; the missing end time defaults to start plus one
hour. -/
def create_caldav_event (putSend : String → HttpResp) (generated_uid : String)
    (now : PyDateTime) (title description : String) (start_time : PyDateTime)
    (end_time : Option PyDateTime) : Except PyErr String :=
  let e := end_time.getD (add_minutes start_time 60)
  let ics := build_icalendar_event generated_uid title description start_time e now
  let resp := putSend ics
  if resp.status = 200 ∨ resp.status = 201 ∨ resp.status = 204 then .ok generated_uid
  else .error ("Échec de la création de l\x27événement: " ++ toString resp.status ++ " - " ++ resp.text)

/-- Embedding of update_caldav_event (caldav_sync.py 286-326): the PUT goes
to the URL of the stored uid and that uid is returned on success. -/
def update_caldav_event (putSend : String → HttpResp) (event_uid : String)
    (now : PyDateTime) (title description : String) (start_time : PyDateTime)
    (end_time : Option PyDateTime) : Except PyErr String :=
  let e := end_time.getD (add_minutes start_time 60)
  let ics := build_icalendar_event event_uid title description start_time e now
  let resp := putSend ics
  if resp.status = 200 ∨ resp.status = 201 ∨ resp.status = 204 then .ok event_uid
  else .error ("Échec de la mise à jour de l\x27événement: " ++ toString resp.status)

/-- Embedding of delete_caldav_event (caldav_sync.py 329-349): statuses 200,
204 and 404 all report success. -/
def delete_caldav_event (resp : HttpResp) : Bool :=
  resp.status == 200 || resp.status == 204 || resp.status == 404

/-- Embedding of build_session_description_caldav (caldav_sync.py 356-408);
the lines are joined with a literal backslash-n sequence. -/
def build_session_description_caldav (session_id : Int) (activity_types : List String)
    (exercises : List ExRow) (frontend_url : String) : String :=
  let l1 :=
    if activity_types = [] then []
    else ["════════════════════════════════",
      "ACTIVITÉS: " ++ join_sep ", " activity_types,
      "════════════════════════════════", ""]
  let l2 :=
    if exercises = [] then []
    else ["EXERCICES PLANIFIÉS:", ⟨List.replicate 30 '─'⟩] ++
      ((exercises.take 10).enum.map fun p => ex_line (p.1 + 1) p.2) ++
      (if exercises.length > 10 then
        ["... et " ++ toString (exercises.length - 10) ++ " exercice(s) supplémentaire(s)"]
      else []) ++ [""]
  let l3 := ["════════════════════════════════", "🚀 LANCER LA SÉANCE",
    frontend_url ++ "/workout/sessions/" ++ toString session_id,
    "════════════════════════════════"]
  join_sep "\\n" (l1 ++ l2 ++ l3)

/-- Responses the CalDAV orchestrator can consume for one session: the PUT
transport (as a function of the document), the uuid4() draw used on the
create path and the utcnow() reading of the document builder. -/
structure AppleWorld where
  putSend : String → HttpResp
  generated_uid : String
  now : PyDateTime

/-- Body of the try block of sync_session_to_apple_calendar (caldav_sync.py
428-455). -/
def sync_session_to_apple_calendar_try (w : AppleWorld) (frontend_url : String)
    (session_id : Int) (session_name : String) (activity_types : List String)
    (scheduled_at : PyDateTime) (exercises : List ExRow)
    (existing_event_uid : Option JVal) : Except PyErr (Option JVal) :=
  let description := build_session_description_caldav session_id activity_types exercises frontend_url
  match existing_event_uid with
  | some v =>
    if jTruthy v then
      match update_caldav_event w.putSend (pyStr v) w.now session_name description scheduled_at none with
      | .ok uid => .ok (some (.str uid))
      | .error e => .error e
    else
      match create_caldav_event w.putSend w.generated_uid w.now session_name description scheduled_at none with
      | .ok uid => .ok (some (.str uid))
      | .error e => .error e
  | none =>
    match create_caldav_event w.putSend w.generated_uid w.now session_name description scheduled_at none with
    | .ok uid => .ok (some (.str uid))
    | .error e => .error e

/-- Embedding of sync_session_to_apple_calendar (caldav_sync.py 411-459):
any exception is swallowed and the stored uid is returned unchanged. -/
def sync_session_to_apple_calendar (w : AppleWorld) (frontend_url : String)
    (session_id : Int) (session_name : String) (activity_types : List String)
    (scheduled_at : PyDateTime) (exercises : List ExRow)
    (existing_event_uid : Option JVal) : Option JVal :=
  match sync_session_to_apple_calendar_try w frontend_url session_id session_name
    activity_types scheduled_at exercises existing_event_uid with
  | .ok v => v
  | .error _ => existing_event_uid

-- ==========================================================================
-- calendar_routes.py : reconciliation (Google -> planner) and batch sync
-- ==========================================================================

/-- Stored recurrence_exceptions column, seen through json.loads: the column
is NULL or empty (empty), holds text that fails to parse (badJson), or parses
to a JSON value (val). -/
inductive ExcStored where
  | empty
  | badJson
  | val (v : JVal)
deriving DecidableEq

/-- Embedding of the existing-set computation of the reconciliation blocks
(calendar_routes.py 254-261 and 445-452): an empty or unparseable column, or
one whose JSON is not a list, contributes nothing; a list contributes the
str() of each element. -/
def existing_exception_list : ExcStored → List String
  | .empty => []
  | .badJson => []
  | .val v => if v.isArr then v.elems.map pyStr else []

/-- Set reading of a stored exception column (the Python value is a set). -/
def parsed_exception_set (e : ExcStored) : Finset String :=
  (existing_exception_list e).toFinset

/-- Keep-last deduplication; together with sorting below it renders the
Python expression sorted(set-of-strings) deterministically. -/
def dedup_strings : List String → List String
  | [] => []
  | x :: xs =>
    let r := dedup_strings xs
    if x ∈ r then r else x :: r

/-- Byte-wise character order, as Python compares str. -/
def char_lt (a b : Char) : Bool := Nat.blt a.toNat b.toNat

/-- Lexicographic string order on code points, as Python sorted uses. -/
def str_le : List Char → List Char → Bool
  | [], _ => true
  | _ :: _, [] => false
  | a :: as, b :: bs => char_lt a b || (a = b && str_le as bs)

/-- Ordered insertion for the sorted() model. -/
def insert_sorted (x : String) : List String → List String
  | [] => [x]
  | y :: ys => if str_le x.data y.data then x :: y :: ys else y :: insert_sorted x ys

/-- Model of Python sorted() on a list of strings. -/
def sort_strings (l : List String) : List String := l.foldr insert_sorted []

/-- One materialized instance of a recurring Google event, as the
reconciliation loop reads it: inst.get("status"), and the dateTime / date
members of inst.get("originalStartTime") (none when the key or the dict is
absent). -/
structure GInstance where
  status : Option JVal
  ostDateTime : Option JVal
  ostDate : Option JVal
deriving DecidableEq

/-- Embedding of the cancelled-days loop (calendar_routes.py 234-251 and
427-442).  to_local_date models datetime.fromisoformat followed by
astimezone(Europe/Paris) and date().isoformat(); a parse failure (none) is
the source's except-continue.  A non-string dateTime raises inside the inner
try (its replace call) and is likewise skipped.  The Python set is carried
as the list of added elements; the merge below deduplicates, so only its
underlying set matters. -/
def cancelled_days (to_local_date : String → Option String) (insts : List GInstance) : List String :=
  insts.filterMap
    (fun inst =>
      if inst.status ≠ some (JVal.str "cancelled") then none
      else if oTruthy inst.ostDateTime then
        match inst.ostDateTime with
        | some (JVal.str s) => to_local_date (py_replace_char 'Z' "+00:00" s)
        | _ => none
      else
        match inst.ostDate with
        | some dv => if jTruthy dv then some (pyStr dv) else none
        | none => none)

/-- Embedding of the exception-merge step (calendar_routes.py 253-263 and
444-455): nothing is written when no cancelled day was found; otherwise the
stored column becomes the JSON list of the sorted union of the parsed
existing set and the cancelled days. -/
def merge_exceptions (cancelled : List String) (stored : ExcStored) : ExcStored :=
  if cancelled = [] then stored
  else .val (JVal.mkArr ((sort_strings (dedup_strings
    (existing_exception_list stored ++ cancelled))).map JVal.str))

/-- Modelled from the spec: get_calendar_event is imported by
calendar_routes.py from workout.calendar_sync but is absent from that module
in the source tree; section 4.4 and section 4.6 step 1 of the specification
describe the REST-provider fetch as returning the event by id, reporting
"not found" as the absent value, and failing on other transport errors. -/
def get_calendar_event (resp : HttpResp) : Except PyErr (Option JVal) :=
  if resp.status = 404 then .ok none
  else if resp.status = 200 then
    match resp.json with
    | .ok v => .ok (some v)
    | .error _ => .error "JSONDecodeError"
  else .error ("Failed to fetch event: " ++ toString resp.status)

/-- User columns consumed by the calendar routes. -/
structure UserRow where
  googleConnected : Bool
  googleRefreshToken : Option String
  appleConnected : Bool
  appleId : Option String
  appleAppPassword : Option String
  appleUrl : Option String
deriving DecidableEq

/-- Session columns consumed by the calendar routes.  activity_names is the
label list the handlers assemble from the three legacy activity fields (that
multi-step fallback chain is consumed as a given list here; no claim depends
on its internals). -/
structure SessionRow where
  id : Int
  name : String
  activity_names : List String
  scheduled_at : PyDateTime
  google_calendar_event_id : Option JVal
  apple_calendar_event_uid : Option JVal
  recurrence_type : Option String
  recurrence_data : Option String
  recurrence_exceptions : ExcStored
  exercises : List ExRow
deriving DecidableEq

/-- Condition under which the routes cascade a deletion to the Apple
counterpart (calendar_routes.py 216 and 407). -/
def apple_linked (u : UserRow) (s : SessionRow) : Bool :=
  u.appleConnected && osTruthy u.appleId && osTruthy u.appleUrl &&
    oTruthy s.apple_calendar_event_uid

/-- Outcome of the single-session reconciliation pre-step. -/
structure ReconcileOutcome where
  shouldDelete : Bool
  appleDeleteAttempted : Bool
  exceptions : ExcStored
deriving DecidableEq

/-- Embedding of the reconciliation block of sync_single_session
(calendar_routes.py 399-460).  fetchResp is the response behind the
spec-modelled get_calendar_event; instances is the outcome of the (absent
from the module, spec-modelled) list_calendar_event_instances call.  A
missing event deletes the session (cascading to the Apple counterpart when
linked) and touches nothing else; any other error is swallowed and the pass
is skipped. -/
def sync_single_session_reconcile (to_local_date : String → Option String)
    (refreshResp fetchResp : HttpResp) (instances : Except PyErr (List GInstance))
    (u : UserRow) (s : SessionRow) : ReconcileOutcome :=
  match refresh_access_token refreshResp with
  | .error _ => ⟨false, false, s.recurrence_exceptions⟩
  | .ok tokens =>
    match pyGet tokens "access_token" with
    | .error _ => ⟨false, false, s.recurrence_exceptions⟩
    | .ok access_token =>
      if oTruthy access_token && oTruthy s.google_calendar_event_id then
        match get_calendar_event fetchResp with
        | .error _ => ⟨false, false, s.recurrence_exceptions⟩
        | .ok none => ⟨true, apple_linked u s, s.recurrence_exceptions⟩
        | .ok (some _) =>
          if osTruthy s.recurrence_type then
            match instances with
            | .error _ => ⟨false, false, s.recurrence_exceptions⟩
            | .ok l =>
              ⟨false, false, merge_exceptions (cancelled_days to_local_date l) s.recurrence_exceptions⟩
          else ⟨false, false, s.recurrence_exceptions⟩
      else ⟨false, false, s.recurrence_exceptions⟩

/-- Per-session responses consumed by the batch endpoint: the orchestrator
responses, the fetch behind the reconciliation, and the instance listing. -/
structure SessWorld where
  gw : GoogleWorld
  fetchResp : HttpResp
  instances : Except PyErr (List GInstance)

/-- Embedding of the reconciliation part of the batch loop
(calendar_routes.py 209-263): skipped without a batch token or stored event
id; a missing event deletes the session (none); errors propagate to the
per-session handler. -/
def reconcile_in_batch (to_local_date : String → Option String)
    (access_token : Option JVal) (w : SessWorld) (s : SessionRow) :
    Except PyErr (Option SessionRow) :=
  if oTruthy access_token && oTruthy s.google_calendar_event_id then
    match get_calendar_event w.fetchResp with
    | .error e => .error e
    | .ok none => .ok none
    | .ok (some _) =>
      if osTruthy s.recurrence_type then
        match w.instances with
        | .error e => .error e
        | .ok l =>
          let e2 := merge_exceptions (cancelled_days to_local_date l) s.recurrence_exceptions
          .ok (some { s with recurrence_exceptions := e2 })
      else .ok (some s)
  else .ok (some s)

/-- Contribution of one session to the batch result: surviving rows, synced
increment, error messages (calendar_routes.py 207-346). -/
def batch_item (loads : String → Except Unit JVal) (paris_localize : PyDateTime → String)
    (to_local_date : String → Option String) (access_token : Option JVal)
    (frontend_url : String) (it : SessionRow × SessWorld) :
    List SessionRow × Nat × List String :=
  let s := it.1
  let w := it.2
  match reconcile_in_batch to_local_date access_token w s with
  | .error e => ([s], 0, ["Session " ++ toString s.id ++ ": " ++ e])
  | .ok none => ([], 0, [])
  | .ok (some s2) =>
    let event_id := sync_session_to_calendar loads paris_localize w.gw frontend_url
      s2.id s2.name s2.activity_names s2.scheduled_at s2.exercises
      s2.google_calendar_event_id s2.recurrence_type s2.recurrence_data
    if oTruthy event_id = true ∧ event_id ≠ s2.google_calendar_event_id then
      ([{ s2 with google_calendar_event_id := event_id }], 1, [])
    else ([s2], 0, [])

/-- Result of the batch endpoint: the JSON fields synced / total / errors
(an empty errors list is serialized as null) plus the rows surviving in the
database. -/
structure BatchResult where
  synced : Nat
  total : Nat
  errors : List String
  rows : List SessionRow
deriving DecidableEq

/-- Embedding of the sync_all_sessions endpoint (calendar_routes.py
145-355): a 400 without a connected account; one batch token refresh whose
failure only disables reconciliation; then the per-session loop whose
exceptions become per-session error strings. -/
def sync_all_sessions (loads : String → Except Unit JVal)
    (paris_localize : PyDateTime → String) (to_local_date : String → Option String)
    (u : UserRow) (global_refresh : HttpResp) (frontend_url : String)
    (items : List (SessionRow × SessWorld)) : Except PyErr BatchResult :=
  if (u.googleConnected && osTruthy u.googleRefreshToken) = false then
    .error "HTTPException 400: Google Calendar n\x27est pas connecté"
  else
    let access_token : Option JVal :=
      match refresh_access_token global_refresh with
      | .ok t =>
        match pyGet t "access_token" with
        | .ok v => v
        | .error _ => none
      | .error _ => none
    let out := items.foldr
      (fun it acc =>
        let r := batch_item loads paris_localize to_local_date access_token frontend_url it
        (r.1 ++ acc.1, r.2.1 + acc.2.1, r.2.2 ++ acc.2.2))
      (([], 0, []) : List SessionRow × Nat × List String)
    .ok ⟨out.2.1, items.length, out.2.2, out.1⟩

-- ==========================================================================
-- caldav_sync.py discovery and apple_calendar_routes.py connect
-- ==========================================================================

/-- Split a character list at the first occurrence of the marker sequence
colon-slash-slash, yielding the scheme part and what follows. -/
def split_scheme : List Char → Option (List Char × List Char)
  | [] => none
  | c :: rest =>
    if c = ':' ∧ rest.take 2 = ['/', '/'] then some ([], rest.drop 2)
    else (split_scheme rest).map fun p => (c :: p.1, p.2)

/-- Model of the expression f-string scheme://netloc over urlparse
(caldav_sync.py 147-149) for conventional hierarchical absolute URLs: the
scheme is everything before the first colon-slash-slash marker, the netloc
everything after it up to the next slash.  (urlparse additionally validates
scheme characters; server-returned calendar-home URLs are https URLs, where
the two agree.) -/
def py_base_url (u : String) : String :=
  match split_scheme u.data with
  | some p => (⟨p.1⟩ : String) ++ "://" ++ (⟨p.2.takeWhile (fun c => c ≠ '/')⟩ : String)
  | none => "://"

/-- One d:response element of the depth-1 calendar listing, as the source
reads it: presence and text of the d:href child, presence and text of the
d:displayname descendant, and whether a d:resourcetype descendant exists and
contains a cal:calendar child. -/
structure DavResponse where
  hrefElem : Option (Option String)
  displaynameElem : Option (Option String)
  resourcetypeHasCalendar : Option Bool
deriving DecidableEq

/-- A discovered calendar dict: href (None when the href element is empty)
and displayed name (None when the displayname element is empty). -/
structure DiscoveredCal where
  href : Option String
  name : Option String
deriving DecidableEq

/-- Embedding of the calendar-collection extraction of discover_caldav_server
(caldav_sync.py 146-169): keep responses whose resourcetype holds a calendar
and which carry an href element; a truthy href not starting with http is
prefixed with the scheme+host of the calendar home; the name falls back to
"Calendrier" only when the displayname element is absent. -/
def extract_calendars (calendar_home : String) (rs : List DavResponse) : List DiscoveredCal :=
  let base_url := py_base_url calendar_home
  rs.filterMap fun r =>
    let is_calendar := r.resourcetypeHasCalendar.getD false
    match r.hrefElem with
    | some txt =>
      if is_calendar then
        let calendar_href :=
          match txt with
          | some h => some (if h ≠ "" ∧ py_startswith "http" h = false then base_url ++ h else h)
          | none => none
        some ⟨calendar_href, match r.displaynameElem with
          | some nm => nm
          | none => some "Calendrier"⟩
      else none
    | none => none

/-- Parsed responses of the three PROPFIND steps of discover_caldav_server:
status and extracted href text for the principal and calendar-home steps,
status and response elements for the listing step. -/
structure DiscoveryResponses where
  principalStatus : Nat
  principalHref : Option String
  homeStatus : Nat
  calendarHomeHref : Option String
  listStatus : Nat
  elems : List DavResponse
deriving DecidableEq

/-- Result dict of discover_caldav_server. -/
structure DiscoveryResult where
  principal_url : String
  calendar_home : String
  calendars : List DiscoveredCal
deriving DecidableEq

/-- Embedding of discover_caldav_server (caldav_sync.py 38-175): each step
requires a 207 status and a non-empty extracted href, any failure raises
ValueError; the principal href is resolved against the fixed iCloud root,
the calendar home is used as returned. -/
def discover_caldav_server (w : DiscoveryResponses) : Except PyErr DiscoveryResult :=
  if w.principalStatus ≠ 207 then .error "Échec de la découverte CalDAV"
  else match w.principalHref with
  | none => .error "Principal non trouvé dans la réponse"
  | some ph =>
    if ph = "" then .error "Principal non trouvé dans la réponse"
    else
      let principal_url := "https://caldav.icloud.com" ++ ph
      if w.homeStatus ≠ 207 then .error "Échec de la récupération du calendar-home"
      else match w.calendarHomeHref with
      | none => .error "Calendar home non trouvé"
      | some ch =>
        if ch = "" then .error "Calendar home non trouvé"
        else if w.listStatus ≠ 207 then .error "Échec de la liste des calendriers"
        else .ok ⟨principal_url, ch, extract_calendars ch w.elems⟩

/-- Keyword list of the sport-calendar heuristic
(apple_calendar_routes.py 81-84). -/
def calendar_names_to_check : List String :=
  ["sport", "sports", "entraînement", "entrainement", "training",
   "workout", "fitness", "gym", "musculation", "salle"]

/-- Name list excluded by the fallback heuristic
(apple_calendar_routes.py 97). -/
def school_names : List String :=
  ["école", "ecole", "school", "travail", "work"]

/-- Sport-name predicate of the connect heuristic on a present display name:
the lowered stripped name is one of the keywords, or some keyword occurs in
the lowered name. -/
def sport_name_b (s : String) : Bool :=
  calendar_names_to_check.contains (py_strip (py_lower s)) ||
    calendar_names_to_check.any fun kw => py_in kw (py_lower s)

/-- School-name predicate of the fallback filter on a present display name. -/
def school_name_b (s : String) : Bool := school_names.contains (py_lower s)

/-- The sport filter condition as the route evaluates it: a missing (None)
name raises AttributeError on .lower(). -/
def name_is_sport (n : Option String) : Except PyErr Bool :=
  match n with
  | none => .error "AttributeError: NoneType has no attribute lower"
  | some s => .ok (sport_name_b s)

/-- The non-school filter condition as the route evaluates it. -/
def name_not_school (n : Option String) : Except PyErr Bool :=
  match n with
  | none => .error "AttributeError: NoneType has no attribute lower"
  | some s => .ok (!school_name_b s)

/-- List-comprehension filter whose predicate can raise. -/
def filterE (p : α → Except PyErr Bool) : List α → Except PyErr (List α)
  | [] => .ok []
  | a :: as =>
    match p a with
    | .error e => .error e
    | .ok b =>
      match filterE p as with
      | .error e => .error e
      | .ok l => .ok (if b then a :: l else l)

/-- Embedding of the calendar-URL choice of connect_apple_calendar
(apple_calendar_routes.py 77-108): a supplied URL short-circuits the
heuristic; otherwise, on a non-empty discovered list, the first
sport-matching calendar, else the first non-school calendar, else the first
calendar is chosen; a falsy resulting URL raises the 400 error. -/
def connect_apple_calendar_choice (request_calendar_url : Option String)
    (calendars : List DiscoveredCal) : Except PyErr String :=
  let chosen : Except PyErr (Option String) :=
    if osTruthy request_calendar_url = false ∧ calendars ≠ [] then
      match filterE (fun c => name_is_sport c.name) calendars with
      | .error e => .error e
      | .ok sport_calendars =>
        match sport_calendars with
        | c :: _ => .ok c.href
        | [] =>
          match filterE (fun c => name_not_school c.name) calendars with
          | .error e => .error e
          | .ok non_school_calendars =>
            match non_school_calendars with
            | c :: _ => .ok c.href
            | [] =>
              match calendars with
              | c :: _ => .ok c.href
              | [] => .ok none
    else .ok request_calendar_url
  match chosen with
  | .error e => .error e
  | .ok cu =>
    if osTruthy cu then .ok (cu.getD "")
    else .error "HTTPException 400: Aucun calendrier trouvé dans votre compte iCloud"

/-- Formalisation of the claim text of C10, written from its words: the first
discovered calendar whose display name matches or contains a sport-related
keyword; otherwise the first calendar whose name is not a school/work name;
otherwise the first discovered calendar.  Calendars are (name, href) pairs. -/
def claim_selected_url (cals : List (String × String)) : Option String :=
  match cals.filter (fun c => sport_name_b c.1) with
  | c :: _ => some c.2
  | [] =>
    match cals.filter (fun c => !school_name_b c.1) with
    | c :: _ => some c.2
    | [] =>
      match cals with
      | c :: _ => some c.2
      | [] => none

-- ==========================================================================
-- Claim-side helper definitions and concrete scenarios
-- ==========================================================================

/-- Unscoped default rule per recurrence kind, as the claim C7 names it. -/
def unscoped_rule (t : String) : String :=
  if t = "daily" then "RRULE:FREQ=DAILY"
  else if t = "weekly" then "RRULE:FREQ=WEEKLY"
  else "RRULE:FREQ=MONTHLY"

/-- A weekly entry no table lookup accepts (an invalid weekday token). -/
def bad_weekly_entry (d : JVal) : Bool :=
  (day_mapping.lookup (py_lower (pyStr d))).isNone

/-- A monthly entry that is non-numeric or out of the 1..31 range. -/
def bad_monthly_entry (d : JVal) : Bool :=
  match pyInt d with
  | none => true
  | some n => decide (n < 1) || decide (31 < n)

/-- Malformed recurrence data in the sense of claim C7: data that is present
but empty, unparseable, not a list, an empty list, or a list all of whose
entries are invalid for the kind. -/
def malformed_data (loads : String → Except Unit JVal) (t : String)
    (rd : Option String) : Bool :=
  match rd with
  | none => false
  | some s =>
    s == "" ||
    (match loads s with
     | .error _ => true
     | .ok v =>
       !v.isArr || decide (v.elems = []) ||
       (if t = "weekly" then v.elems.all bad_weekly_entry
        else if t = "monthly" then v.elems.all bad_monthly_entry
        else false))

/-- A json.loads stand-in for scenarios where no recurrence data is parsed. -/
def no_loads : String → Except Unit JVal := fun _ => .error ()

/-- A fromisoformat/astimezone stand-in for scenarios without timed
occurrences. -/
def no_tolocal : String → Option String := fun _ => none

/-- Token endpoint response accepting the refresh token. -/
def refresh_ok_resp : HttpResp :=
  ⟨200, .ok (JVal.mkObj [("access_token", JVal.str "tok")]), ""⟩

/-- Token endpoint response rejecting the refresh token (revoked grant). -/
def refresh_rejected_resp : HttpResp := ⟨401, .error (), "invalid_grant"⟩

/-- Event-creation response assigning the given provider id. -/
def created_resp (eid : String) : HttpResp :=
  ⟨200, .ok (JVal.mkObj [("id", JVal.str eid)]), ""⟩

/-- A transport failure with HTTP 500. -/
def server_error_resp : HttpResp := ⟨500, .error (), "Internal Server Error"⟩

/-- A planned session with no stored external references. -/
def plain_session (i : Int) : SessionRow :=
  ⟨i, "Séance", [], ⟨2026, 1, 5, 10, 0, 0⟩, none, none, none, none, .empty, []⟩

/-- Per-session responses where the transport succeeds and assigns eid. -/
def ok_world (eid : String) : SessWorld :=
  ⟨⟨refresh_ok_resp, fun _ => created_resp eid, fun _ => server_error_resp⟩,
   server_error_resp, .ok []⟩

/-- Per-session responses where the transport fails with HTTP 500. -/
def fail_world : SessWorld :=
  ⟨⟨refresh_ok_resp, fun _ => server_error_resp, fun _ => server_error_resp⟩,
   server_error_resp, .ok []⟩

/-- Per-session responses where the provider rejects the refresh token. -/
def rejected_world : SessWorld :=
  ⟨⟨refresh_rejected_resp, fun _ => server_error_resp, fun _ => server_error_resp⟩,
   server_error_resp, .ok []⟩

/-- A user with a connected Google Calendar account. -/
def batch_user : UserRow := ⟨true, some "refresh-token", false, none, none, none⟩

/-- Batch of three sessions where session 2's transport call fails with HTTP
500 and the other two sessions' transport calls succeed (claim C3). -/
def c3_items : List (SessionRow × SessWorld) :=
  [(plain_session 1, ok_world "g1"), (plain_session 2, fail_world),
   (plain_session 3, ok_world "g3")]

/-- Batch endpoint outcome on the C3 scenario. -/
def c3_result : Except PyErr BatchResult :=
  sync_all_sessions no_loads py_isoformat no_tolocal batch_user refresh_ok_resp
    "https://mylifeplanner.space" c3_items

/-- Batch of one session under a rejected refresh token (claim C5). -/
def c5_items : List (SessionRow × SessWorld) := [(plain_session 7, rejected_world)]

/-- Batch endpoint outcome when the provider rejects the stored refresh
token both for the batch token and for the per-session refresh. -/
def c5_result : Except PyErr BatchResult :=
  sync_all_sessions no_loads py_isoformat no_tolocal batch_user
    refresh_rejected_resp "https://mylifeplanner.space" c5_items

/-- Token endpoint and fetch responses for the reconciliation scenarios. -/
def not_found_resp : HttpResp := ⟨404, .error (), "Not Found"⟩

/-- Event fetch response confirming the series still exists. -/
def event_ok_resp : HttpResp := ⟨200, .ok (JVal.mkObj [("id", JVal.str "g5")]), ""⟩

/-- A user with both providers connected (Apple counterpart linked). -/
def full_user : UserRow :=
  ⟨true, some "refresh-token", true, some "user@icloud.example", some "app-pw",
   some "https://caldav.icloud.example/home/"⟩

/-- A recurring session carrying a REST-provider reference, an Apple
counterpart uid and one already-recorded exception date. -/
def c1_session : SessionRow :=
  { plain_session 5 with
    google_calendar_event_id := some (JVal.str "g5"),
    apple_calendar_event_uid := some (JVal.str "u5"),
    recurrence_type := some "weekly",
    recurrence_exceptions := .val (JVal.mkArr [JVal.str "2026-01-02"]) }

/-- Two materialized instances, one cancelled all-day occurrence and one
confirmed one. -/
def c1_instances : List GInstance :=
  [⟨some (JVal.str "cancelled"), none, some (JVal.str "2026-01-09")⟩,
   ⟨some (JVal.str "confirmed"), none, some (JVal.str "2026-01-16")⟩]

/-- A json.loads outcome whose parsed list holds only invalid monthly
entries (a non-numeric day and an out-of-range day). -/
def c7_loads : String → Except Unit JVal :=
  fun _ => .ok (JVal.mkArr [JVal.str "abc", JVal.num 40])

/-- A successful three-step discovery exchange whose calendar listing returns
two calendar-typed children with relative hrefs. -/
def c9_responses : DiscoveryResponses :=
  ⟨207, some "/1234/principal/", 207,
   some "https://p01-caldav.icloud.com/1234/calendars/", 207,
   [⟨some (some "/1234/calendars/home/"), some (some "Sport"), some true⟩,
    ⟨some (some "/1234/calendars/work/"), some (some "Travail"), some true⟩]⟩

/-- The discovery result on c9_responses: both hrefs made absolute against
the calendar home's scheme and host. -/
def c9_result : DiscoveryResult :=
  ⟨"https://caldav.icloud.com/1234/principal/",
   "https://p01-caldav.icloud.com/1234/calendars/",
   [⟨some "https://p01-caldav.icloud.com/1234/calendars/home/", some "Sport"⟩,
    ⟨some "https://p01-caldav.icloud.com/1234/calendars/work/", some "Travail"⟩]⟩

-- ==========================================================================
-- Theorems
-- ==========================================================================

/-- Claim C6 counterexample: the claim says both providers treat a provider
"not found" (HTTP 404) on delete as success, but the REST-provider delete
(delete_calendar_event, status == 204) reports failure on a 404 response,
while the protocol-provider delete accepts it. -/
theorem cex_C6_rest_delete_404_reports_failure :
    delete_calendar_event ⟨404, .error (), "Not Found"⟩ = false ∧
    delete_caldav_event ⟨404, .error (), "Not Found"⟩ = true := by
  constructor
  · rfl
  · rfl

/-- Claim C6 (corrected): only the protocol-provider delete treats 404 as an
idempotent success; the REST-provider delete reports success exactly on 204,
so a 404 response reports failure. -/
theorem thm_C6_delete_not_found (resp : HttpResp) (h : resp.status = 404) :
    delete_caldav_event resp = true ∧ delete_calendar_event resp = false := by
  unfold delete_caldav_event delete_calendar_event
  rw [h]
  constructor
  · rfl
  · rfl

/-- Claim C6 witness. -/
theorem wit_C6_delete_not_found :
    delete_caldav_event ⟨404, .error (), ""⟩ = true ∧
    delete_calendar_event ⟨404, .error (), ""⟩ = false :=
  thm_C6_delete_not_found ⟨404, .error (), ""⟩ (by rfl)

/-- Claim C8 counterexample: the protocol-provider document renderer is not a
deterministic function of the event inputs alone — build_icalendar_event
stamps datetime.utcnow() into CREATED / DTSTAMP / LAST-MODIFIED, so two
invocations with identical uid, title, description, start and end but one
second apart render different documents. -/
theorem cex_C8_icalendar_renderer_clock_dependent :
    build_icalendar_event "uid-1" "Séance" "desc" ⟨2026, 1, 5, 10, 0, 0⟩
        ⟨2026, 1, 5, 11, 30, 0⟩ ⟨2026, 1, 4, 8, 0, 0⟩ ≠
      build_icalendar_event "uid-1" "Séance" "desc" ⟨2026, 1, 5, 10, 0, 0⟩
        ⟨2026, 1, 5, 11, 30, 0⟩ ⟨2026, 1, 4, 8, 0, 1⟩ := by
  decide

/-- Claim C8 (corrected): the REST JSON body builder is a deterministic
function of its inputs, and the protocol text-document builder is
deterministic in its inputs together with the utcnow() reading — it depends
on the clock only through the rendered stamp, so two invocations whose clock
readings render the same stamp produce identical documents. -/
theorem thm_C8_renderers_deterministic
    (title description : String) (start_time : PyDateTime)
    (end_time : Option PyDateTime) (recurrence : Option (List String))
    (uid des2 : String) (st2 et2 : PyDateTime) (now1 now2 : PyDateTime)
    (h : strftime_compact now1 = strftime_compact now2) :
    build_google_event_body title description start_time end_time recurrence =
      build_google_event_body title description start_time end_time recurrence ∧
    build_icalendar_event uid title des2 st2 et2 now1 =
      build_icalendar_event uid title des2 st2 et2 now2 := by
  constructor
  · rfl
  · unfold build_icalendar_event
    rw [h]

/-- Claim C8 witness. -/
theorem wit_C8_renderers_deterministic :
    build_google_event_body "T" "D" ⟨2026, 1, 5, 10, 0, 0⟩ none none =
      build_google_event_body "T" "D" ⟨2026, 1, 5, 10, 0, 0⟩ none none ∧
    build_icalendar_event "u" "T" "D" ⟨2026, 1, 5, 10, 0, 0⟩ ⟨2026, 1, 5, 11, 0, 0⟩
        ⟨2026, 1, 4, 8, 0, 0⟩ =
      build_icalendar_event "u" "T" "D" ⟨2026, 1, 5, 10, 0, 0⟩ ⟨2026, 1, 5, 11, 0, 0⟩
        ⟨2026, 1, 4, 8, 0, 0⟩ :=
  thm_C8_renderers_deterministic "T" "D" ⟨2026, 1, 5, 10, 0, 0⟩ none none "u" "D"
    ⟨2026, 1, 5, 10, 0, 0⟩ ⟨2026, 1, 5, 11, 0, 0⟩ ⟨2026, 1, 4, 8, 0, 0⟩
    ⟨2026, 1, 4, 8, 0, 0⟩ rfl


/-- Claim C2: for either provider, every failure raised inside the sync
orchestrator's try body — a rejected token refresh, or a transport rejection
on the update or create call — is swallowed, the call returns normally, and
the previously stored external reference is returned unchanged.  (The
renderers are pure and cannot raise; the clause premises on the update and
create paths state that execution reaches the transport call.) -/
theorem thm_C2_orchestrator_swallows_failures
    (loads : String → Except Unit JVal) (paris_localize : PyDateTime → String)
    (w : GoogleWorld) (aw : AppleWorld) (frontend_url : String) (session_id : Int)
    (session_name : String) (activity_types : List String) (scheduled_at : PyDateTime)
    (exercises : List ExRow) (existing_event_id existing_event_uid : Option JVal)
    (recurrence_type recurrence_data : Option String) :
    (w.refreshResp.status ≠ 200 →
      sync_session_to_calendar loads paris_localize w frontend_url session_id
        session_name activity_types scheduled_at exercises existing_event_id
        recurrence_type recurrence_data = existing_event_id) ∧
    (∀ tokens tok, refresh_access_token w.refreshResp = .ok tokens →
      pyGet tokens "access_token" = .ok tok → oTruthy tok = true →
      oTruthy existing_event_id = true →
      (∀ b, (w.updateSend b).status ≠ 200) →
      sync_session_to_calendar loads paris_localize w frontend_url session_id
        session_name activity_types scheduled_at exercises existing_event_id
        recurrence_type recurrence_data = existing_event_id) ∧
    (∀ tokens tok, refresh_access_token w.refreshResp = .ok tokens →
      pyGet tokens "access_token" = .ok tok → oTruthy tok = true →
      oTruthy existing_event_id = false →
      (∀ b, (w.createSend b).status ≠ 200 ∧ (w.createSend b).status ≠ 201) →
      sync_session_to_calendar loads paris_localize w frontend_url session_id
        session_name activity_types scheduled_at exercises existing_event_id
        recurrence_type recurrence_data = existing_event_id) ∧
    ((∀ d, (aw.putSend d).status ≠ 200 ∧ (aw.putSend d).status ≠ 201 ∧
        (aw.putSend d).status ≠ 204) →
      sync_session_to_apple_calendar aw frontend_url session_id session_name
        activity_types scheduled_at exercises existing_event_uid = existing_event_uid) := by
  refine ⟨?_, ?_, ?_, ?_⟩
  · intro h
    unfold sync_session_to_calendar sync_session_to_calendar_try refresh_access_token
    rw [if_pos h]
  · intro tokens tok h1 h2 h3 h4 hupd
    unfold sync_session_to_calendar sync_session_to_calendar_try
    rw [h1]
    simp [h2, h3, h4, update_calendar_event, hupd]
  · intro tokens tok h1 h2 h3 h4 hcre
    have hc1 : ∀ b, (w.createSend b).status ≠ 200 := fun b => (hcre b).1
    have hc2 : ∀ b, (w.createSend b).status ≠ 201 := fun b => (hcre b).2
    unfold sync_session_to_calendar sync_session_to_calendar_try
    rw [h1]
    simp [h2, h3, h4, create_calendar_event, hc1, hc2]
  · intro hput
    have hp1 : ∀ d, (aw.putSend d).status ≠ 200 := fun d => (hput d).1
    have hp2 : ∀ d, (aw.putSend d).status ≠ 201 := fun d => (hput d).2.1
    have hp3 : ∀ d, (aw.putSend d).status ≠ 204 := fun d => (hput d).2.2
    unfold sync_session_to_apple_calendar sync_session_to_apple_calendar_try
    rcases existing_event_uid with _ | v
    · simp [create_caldav_event, hp1, hp2, hp3]
    · by_cases hv : jTruthy v = true
      · simp [hv, update_caldav_event, hp1, hp2, hp3]
      · simp [hv, create_caldav_event, hp1, hp2, hp3]

/-- Claim C2 witness. -/
theorem wit_C2_orchestrator_swallows_failures :
    (sync_session_to_calendar no_loads py_isoformat
      ⟨refresh_rejected_resp, fun _ => server_error_resp, fun _ => server_error_resp⟩
      "https://mylifeplanner.space" 1 "Séance" [] ⟨2026, 1, 5, 10, 0, 0⟩ []
      (some (JVal.str "g0")) none none = some (JVal.str "g0")) ∧
    (sync_session_to_calendar no_loads py_isoformat
      ⟨refresh_ok_resp, fun _ => server_error_resp, fun _ => server_error_resp⟩
      "https://mylifeplanner.space" 1 "Séance" [] ⟨2026, 1, 5, 10, 0, 0⟩ []
      (some (JVal.str "g0")) none none = some (JVal.str "g0")) ∧
    (sync_session_to_calendar no_loads py_isoformat
      ⟨refresh_ok_resp, fun _ => server_error_resp, fun _ => server_error_resp⟩
      "https://mylifeplanner.space" 1 "Séance" [] ⟨2026, 1, 5, 10, 0, 0⟩ []
      none none none = none) ∧
    (sync_session_to_apple_calendar
      ⟨fun _ => server_error_resp, "uid-1", ⟨2026, 1, 4, 8, 0, 0⟩⟩
      "https://mylifeplanner.space" 1 "Séance" [] ⟨2026, 1, 5, 10, 0, 0⟩ []
      (some (JVal.str "u0")) = some (JVal.str "u0")) := by
  refine ⟨?_, ?_, ?_, ?_⟩
  · exact (thm_C2_orchestrator_swallows_failures no_loads py_isoformat
      ⟨refresh_rejected_resp, fun _ => server_error_resp, fun _ => server_error_resp⟩
      ⟨fun _ => server_error_resp, "uid-1", ⟨2026, 1, 4, 8, 0, 0⟩⟩
      "https://mylifeplanner.space" 1 "Séance" [] ⟨2026, 1, 5, 10, 0, 0⟩ []
      (some (JVal.str "g0")) (some (JVal.str "u0")) none none).1 (by decide)
  · exact (thm_C2_orchestrator_swallows_failures no_loads py_isoformat
      ⟨refresh_ok_resp, fun _ => server_error_resp, fun _ => server_error_resp⟩
      ⟨fun _ => server_error_resp, "uid-1", ⟨2026, 1, 4, 8, 0, 0⟩⟩
      "https://mylifeplanner.space" 1 "Séance" [] ⟨2026, 1, 5, 10, 0, 0⟩ []
      (some (JVal.str "g0")) (some (JVal.str "u0")) none none).2.1
      (JVal.mkObj [("access_token", JVal.str "tok")]) (some (JVal.str "tok"))
      rfl rfl rfl rfl
      (fun _ => (by decide : server_error_resp.status ≠ 200))
  · exact (thm_C2_orchestrator_swallows_failures no_loads py_isoformat
      ⟨refresh_ok_resp, fun _ => server_error_resp, fun _ => server_error_resp⟩
      ⟨fun _ => server_error_resp, "uid-1", ⟨2026, 1, 4, 8, 0, 0⟩⟩
      "https://mylifeplanner.space" 1 "Séance" [] ⟨2026, 1, 5, 10, 0, 0⟩ []
      none (some (JVal.str "u0")) none none).2.2.1
      (JVal.mkObj [("access_token", JVal.str "tok")]) (some (JVal.str "tok"))
      rfl rfl rfl rfl
      (fun _ => ⟨(by decide : server_error_resp.status ≠ 200),
        (by decide : server_error_resp.status ≠ 201)⟩)
  · exact (thm_C2_orchestrator_swallows_failures no_loads py_isoformat
      ⟨refresh_ok_resp, fun _ => server_error_resp, fun _ => server_error_resp⟩
      ⟨fun _ => server_error_resp, "uid-1", ⟨2026, 1, 4, 8, 0, 0⟩⟩
      "https://mylifeplanner.space" 1 "Séance" [] ⟨2026, 1, 5, 10, 0, 0⟩ []
      (some (JVal.str "g0")) (some (JVal.str "u0")) none none).2.2.2
      (fun _ => ⟨(by decide : server_error_resp.status ≠ 200),
        (by decide : server_error_resp.status ≠ 201),
        (by decide : server_error_resp.status ≠ 204)⟩)

/-- Claim C3 counterexample: in the batch of three sessions where session 2's
transport call returns HTTP 500 and the other two succeed, the endpoint does
return synced = 2 and total = 3, but the errors list is empty — it contains
no message identifying session 2, because the orchestrator swallows the
transport failure before the batch loop can see it. -/
theorem cex_C3_batch_errors_empty :
    c3_result.map BatchResult.errors = .ok [] ∧
    c3_result.map BatchResult.synced = .ok 2 ∧
    c3_result.map BatchResult.total = .ok 3 := by
  refine ⟨rfl, rfl, rfl⟩

/-- Claim C3 (corrected): on the three-session batch with session 2's
transport failing with HTTP 500, the endpoint returns synced = 2, total = 3
and an empty errors list (serialized as null); sessions 1 and 3 are still
synced (they carry their new provider ids) and session 2 keeps no
reference. -/
theorem thm_C3_batch_scenario :
    c3_result = .ok ⟨2, 3, [],
      [{ plain_session 1 with google_calendar_event_id := some (JVal.str "g1") },
       plain_session 2,
       { plain_session 3 with google_calendar_event_id := some (JVal.str "g3") }]⟩ := by
  rfl

/-- Claim C5 counterexample: with the provider rejecting the stored refresh
token (HTTP 401), refresh_access_token does raise the credential error, but
the batch endpoint catches it (calendar_routes.py 201-205) and the
per-session orchestrator swallows its own refresh failure, so the endpoint
returns success with no per-item diagnostic instead of raising. -/
theorem cex_C5_credential_error_not_raised :
    refresh_access_token refresh_rejected_resp =
      .error "Failed to refresh token: invalid_grant" ∧
    c5_result = .ok ⟨0, 1, [], [plain_session 7]⟩ := by
  refine ⟨rfl, rfl⟩

/-- Claim C5 (corrected): when the provider rejects the stored refresh token,
the refresh client raises, but the batch endpoint neither propagates the
credential error nor converts it into per-item diagnostics: the batch token
refresh is caught (reconciliation is skipped) and each session's orchestrator
swallows its own refresh failure returning the stored reference, so the
endpoint returns success with zero synced sessions, no errors and unchanged
rows. -/
theorem thm_C5_credential_error_swallowed
    (loads : String → Except Unit JVal) (paris_localize : PyDateTime → String)
    (to_local_date : String → Option String) (u : UserRow)
    (global_refresh : HttpResp) (frontend_url : String)
    (items : List (SessionRow × SessWorld))
    (hconn : u.googleConnected = true) (htok : osTruthy u.googleRefreshToken = true)
    (hg : global_refresh.status ≠ 200)
    (hs : ∀ it ∈ items, it.2.gw.refreshResp.status ≠ 200) :
    refresh_access_token global_refresh =
      .error ("Failed to refresh token: " ++ global_refresh.text) ∧
    sync_all_sessions loads paris_localize to_local_date u global_refresh
      frontend_url items = .ok ⟨0, items.length, [], items.map Prod.fst⟩ := by
  constructor
  · unfold refresh_access_token
    rw [if_pos hg]
  · unfold sync_all_sessions
    rw [hconn, htok]
    simp only [Bool.and_self, Bool.true_eq_false, if_false]
    unfold refresh_access_token
    rw [if_pos hg]
    have hfold : ∀ l : List (SessionRow × SessWorld),
        (∀ it ∈ l, it.2.gw.refreshResp.status ≠ 200) →
        l.foldr
          (fun it acc =>
            let r := batch_item loads paris_localize to_local_date none frontend_url it
            (r.1 ++ acc.1, r.2.1 + acc.2.1, r.2.2 ++ acc.2.2))
          (([], 0, []) : List SessionRow × Nat × List String) =
          (l.map Prod.fst, 0, []) := by
      intro l hl
      induction l with
      | nil => rfl
      | cons it rest ih =>
        have hit : it.2.gw.refreshResp.status ≠ 200 := hl it (List.mem_cons_self it rest)
        have hrest := ih fun x hx => hl x (List.mem_cons_of_mem it hx)
        have hitem : batch_item loads paris_localize to_local_date none frontend_url it =
            ([it.1], 0, []) := by
          unfold batch_item reconcile_in_batch
          simp only [oTruthy, Bool.false_and, Bool.false_eq_true, if_false]
          unfold sync_session_to_calendar sync_session_to_calendar_try
            refresh_access_token
          rw [if_pos hit]
          simp
        simp only [List.foldr_cons, hrest, hitem, List.map_cons]
        simp
    rw [hfold items hs]

/-- Claim C5 witness. -/
theorem wit_C5_credential_error_swallowed :
    refresh_access_token refresh_rejected_resp =
      .error ("Failed to refresh token: " ++ refresh_rejected_resp.text) ∧
    sync_all_sessions no_loads py_isoformat no_tolocal batch_user
      refresh_rejected_resp "https://mylifeplanner.space" c5_items =
      .ok ⟨0, c5_items.length, [], c5_items.map Prod.fst⟩ :=
  thm_C5_credential_error_swallowed no_loads py_isoformat no_tolocal batch_user
    refresh_rejected_resp "https://mylifeplanner.space" c5_items rfl rfl
    (by decide) (by decide)

/-- Every array built by mkArr is an array value. -/
theorem mkArr_isArr (xs : List JVal) : (JVal.mkArr xs).isArr = true := by
  cases xs with
  | nil => rfl
  | cons x t => rfl

/-- mkArr and elems are inverse on lists. -/
theorem mkArr_elems (xs : List JVal) : (JVal.mkArr xs).elems = xs := by
  induction xs with
  | nil => rfl
  | cons x t ih =>
    show x :: (JVal.mkArr t).elems = x :: t
    rw [ih]

/-- Mapping str() over string wrappers is the identity. -/
theorem map_pyStr_map_str (l : List String) : (l.map JVal.str).map pyStr = l := by
  rw [List.map_map]
  have h : pyStr ∘ JVal.str = id := funext fun s => rfl
  rw [h, List.map_id]

/-- Membership through ordered insertion. -/
theorem mem_insert_sorted (x y : String) (l : List String) :
    x ∈ insert_sorted y l ↔ x = y ∨ x ∈ l := by
  induction l with
  | nil => simp [insert_sorted]
  | cons z t ih =>
    unfold insert_sorted
    by_cases h : str_le y.data z.data = true
    · rw [if_pos h]
      simp
    · rw [if_neg h]
      simp only [List.mem_cons, ih]
      tauto

/-- Membership through the sorted() model. -/
theorem mem_sort_strings (x : String) (l : List String) :
    x ∈ sort_strings l ↔ x ∈ l := by
  induction l with
  | nil => simp [sort_strings]
  | cons y t ih =>
    show x ∈ insert_sorted y (sort_strings t) ↔ _
    rw [mem_insert_sorted]
    simp [ih]

/-- Membership through deduplication. -/
theorem mem_dedup_strings (x : String) (l : List String) :
    x ∈ dedup_strings l ↔ x ∈ l := by
  induction l with
  | nil => simp [dedup_strings]
  | cons y t ih =>
    unfold dedup_strings
    by_cases h : y ∈ dedup_strings t
    · simp only [h, if_true, List.mem_cons, ih]
      constructor
      · exact fun hx => Or.inr hx
      · rintro (rfl | hx)
        · exact ih.mp h
        · exact hx
    · simp only [h, if_false, List.mem_cons, ih]

/-- The set stored by the merge step is exactly the union of the previously
stored exception set and the cancelled dates. -/
theorem parsed_merge_exceptions (c : List String) (e : ExcStored) :
    parsed_exception_set (merge_exceptions c e) =
      parsed_exception_set e ∪ c.toFinset := by
  by_cases hc : c = []
  · subst hc
    simp [merge_exceptions]
  · unfold merge_exceptions
    rw [if_neg hc]
    have hval : ∀ l : List String,
        parsed_exception_set (.val (JVal.mkArr (l.map JVal.str))) = l.toFinset := by
      intro l
      show (if (JVal.mkArr (l.map JVal.str)).isArr = true
        then (JVal.mkArr (l.map JVal.str)).elems.map pyStr else []).toFinset = l.toFinset
      rw [mkArr_isArr]
      simp only [if_true]
      rw [mkArr_elems, map_pyStr_map_str]
    rw [hval]
    ext x
    simp only [List.mem_toFinset, mem_sort_strings, mem_dedup_strings,
      List.mem_append, Finset.mem_union, parsed_exception_set, List.mem_toFinset]

/-- Claim C1: for a session holding a REST-provider reference and a
recurrence rule, the reconciliation step stores exactly the union of the
previously stored exception set and the cancelled dates derived from the
listed instances; consequently no previously recorded exception date is
dropped, and merging the same cancelled-date list twice yields the same
final exception set as merging it once. -/
theorem thm_C1_reconcile_exception_union
    (to_local_date : String → Option String) (refreshResp fetchResp : HttpResp)
    (instances : Except PyErr (List GInstance)) (u : UserRow) (s : SessionRow)
    (tokens : JVal) (tok : Option JVal) (ev : JVal) (l : List GInstance)
    (h1 : refresh_access_token refreshResp = .ok tokens)
    (h2 : pyGet tokens "access_token" = .ok tok)
    (h3 : oTruthy tok = true)
    (h4 : oTruthy s.google_calendar_event_id = true)
    (h5 : get_calendar_event fetchResp = .ok (some ev))
    (h6 : osTruthy s.recurrence_type = true)
    (h7 : instances = .ok l) :
    (sync_single_session_reconcile to_local_date refreshResp fetchResp instances u s).exceptions
      = merge_exceptions (cancelled_days to_local_date l) s.recurrence_exceptions ∧
    parsed_exception_set
      (sync_single_session_reconcile to_local_date refreshResp fetchResp instances u s).exceptions
      = parsed_exception_set s.recurrence_exceptions ∪ (cancelled_days to_local_date l).toFinset ∧
    parsed_exception_set s.recurrence_exceptions ⊆
      parsed_exception_set
        (sync_single_session_reconcile to_local_date refreshResp fetchResp instances u s).exceptions ∧
    (∀ (c : List String) (e : ExcStored),
      parsed_exception_set (merge_exceptions c (merge_exceptions c e)) =
        parsed_exception_set (merge_exceptions c e)) := by
  have hout : sync_single_session_reconcile to_local_date refreshResp fetchResp instances u s
      = ⟨false, false, merge_exceptions (cancelled_days to_local_date l) s.recurrence_exceptions⟩ := by
    unfold sync_single_session_reconcile
    rw [h1]
    simp [h2, h3, h4, h5, h6, h7]
  refine ⟨by rw [hout], ?_, ?_, ?_⟩
  · rw [hout]
    exact parsed_merge_exceptions _ _
  · rw [hout]
    rw [parsed_merge_exceptions]
    exact Finset.subset_union_left
  · intro c e
    rw [parsed_merge_exceptions, parsed_merge_exceptions, Finset.union_assoc,
      Finset.union_idempotent]

/-- Claim C1 witness. -/
theorem wit_C1_reconcile_exception_union :
    (sync_single_session_reconcile no_tolocal refresh_ok_resp event_ok_resp
      (.ok c1_instances) full_user c1_session).exceptions
      = merge_exceptions (cancelled_days no_tolocal c1_instances)
          c1_session.recurrence_exceptions ∧
    parsed_exception_set
      (sync_single_session_reconcile no_tolocal refresh_ok_resp event_ok_resp
        (.ok c1_instances) full_user c1_session).exceptions
      = parsed_exception_set c1_session.recurrence_exceptions ∪
          (cancelled_days no_tolocal c1_instances).toFinset ∧
    parsed_exception_set c1_session.recurrence_exceptions ⊆
      parsed_exception_set
        (sync_single_session_reconcile no_tolocal refresh_ok_resp event_ok_resp
          (.ok c1_instances) full_user c1_session).exceptions ∧
    (∀ (c : List String) (e : ExcStored),
      parsed_exception_set (merge_exceptions c (merge_exceptions c e)) =
        parsed_exception_set (merge_exceptions c e)) :=
  thm_C1_reconcile_exception_union no_tolocal refresh_ok_resp event_ok_resp
    (.ok c1_instances) full_user c1_session
    (JVal.mkObj [("access_token", JVal.str "tok")]) (some (JVal.str "tok"))
    (JVal.mkObj [("id", JVal.str "g5")]) c1_instances
    rfl rfl rfl (by decide) rfl (by decide) rfl

/-- Claim C4: when fetching the external event reports "not found", the
single-session reconciliation signals that the session must be deleted, also
attempting the protocol-provider counterpart deletion exactly when one is
linked, and performs no mutation of the stored recurrence exceptions. -/
theorem thm_C4_not_found_signals_delete
    (to_local_date : String → Option String) (refreshResp fetchResp : HttpResp)
    (instances : Except PyErr (List GInstance)) (u : UserRow) (s : SessionRow)
    (tokens : JVal) (tok : Option JVal)
    (h1 : refresh_access_token refreshResp = .ok tokens)
    (h2 : pyGet tokens "access_token" = .ok tok)
    (h3 : oTruthy tok = true)
    (h4 : oTruthy s.google_calendar_event_id = true)
    (h5 : fetchResp.status = 404) :
    get_calendar_event fetchResp = .ok none ∧
    sync_single_session_reconcile to_local_date refreshResp fetchResp instances u s
      = ⟨true, apple_linked u s, s.recurrence_exceptions⟩ := by
  have hfetch : get_calendar_event fetchResp = .ok none := by
    unfold get_calendar_event
    rw [if_pos h5]
  refine ⟨hfetch, ?_⟩
  unfold sync_single_session_reconcile
  rw [h1]
  simp [h2, h3, h4, hfetch]

/-- Claim C4 witness. -/
theorem wit_C4_not_found_signals_delete :
    get_calendar_event not_found_resp = .ok none ∧
    sync_single_session_reconcile no_tolocal refresh_ok_resp not_found_resp
      (.ok c1_instances) full_user c1_session
      = ⟨true, apple_linked full_user c1_session, c1_session.recurrence_exceptions⟩ :=
  thm_C4_not_found_signals_delete no_tolocal refresh_ok_resp not_found_resp
    (.ok c1_instances) full_user c1_session
    (JVal.mkObj [("access_token", JVal.str "tok")]) (some (JVal.str "tok"))
    rfl rfl rfl (by decide) rfl

/-- A string with a non-empty prefix is non-empty. -/
theorem str_append_ne_empty (pre suf : String) (h : pre.data ≠ []) :
    pre ++ suf ≠ "" := by
  intro hcontra
  apply h
  have hd := congrArg String.data hcontra
  rw [String.data_append] at hd
  exact (List.append_eq_nil.mp hd).1

/-- Claim C7: for each kind among daily, weekly and monthly and arbitrary
accompanying data, the recurrence translator returns a one-element non-empty
provider rule and never raises (it is a total function of its inputs here);
and whenever the data is malformed — present but empty, unparseable, not a
list, an empty list, or a list with no valid entry for the kind — the result
is exactly the unscoped default rule for that kind. -/
theorem thm_C7_recurrence_total_and_default
    (loads : String → Except Unit JVal) (t : String) (rd : Option String)
    (hk : t = "daily" ∨ t = "weekly" ∨ t = "monthly") :
    (∃ r, build_google_calendar_recurrence loads (some t) rd = some [r] ∧ r ≠ "") ∧
    (malformed_data loads t rd = true →
      build_google_calendar_recurrence loads (some t) rd = some [unscoped_rule t]) := by
  rcases hk with hk | hk | hk <;> subst hk
  · exact ⟨⟨"RRULE:FREQ=DAILY", rfl, by decide⟩, fun _ => rfl⟩
  · rcases rd with _ | s
    · refine ⟨⟨"RRULE:FREQ=WEEKLY", rfl, by decide⟩, fun h => ?_⟩
      simp [malformed_data] at h
    · by_cases hs : s = ""
      · subst hs
        exact ⟨⟨"RRULE:FREQ=WEEKLY", rfl, by decide⟩, fun _ => rfl⟩
      · cases hload : loads s with
        | error e =>
          have hb : build_google_calendar_recurrence loads (some "weekly") (some s)
              = some ["RRULE:FREQ=WEEKLY"] := by
            simp [build_google_calendar_recurrence, hs, hload]
          exact ⟨⟨"RRULE:FREQ=WEEKLY", hb, by decide⟩, fun _ => hb⟩
        | ok v =>
          by_cases hcond : v.isArr = false ∨ v.elems = []
          · have hb : build_google_calendar_recurrence loads (some "weekly") (some s)
                = some ["RRULE:FREQ=WEEKLY"] := by
              simp only [build_google_calendar_recurrence]
              simp [hs, hload, hcond]
            exact ⟨⟨"RRULE:FREQ=WEEKLY", hb, by decide⟩, fun _ => hb⟩
          · by_cases hbd : v.elems.filterMap
                (fun d => day_mapping.lookup (py_lower (pyStr d))) = []
            · have hb : build_google_calendar_recurrence loads (some "weekly") (some s)
                  = some ["RRULE:FREQ=WEEKLY"] := by
                simp [build_google_calendar_recurrence, hs, hload, hcond, hbd]
              exact ⟨⟨"RRULE:FREQ=WEEKLY", hb, by decide⟩, fun _ => hb⟩
            · have hb : build_google_calendar_recurrence loads (some "weekly") (some s)
                  = some ["RRULE:FREQ=WEEKLY;BYDAY=" ++ join_sep ","
                      (v.elems.filterMap (fun d => day_mapping.lookup (py_lower (pyStr d))))] := by
                simp [build_google_calendar_recurrence, hs, hload, hcond, hbd]
              refine ⟨⟨_, hb, str_append_ne_empty _ _ (by decide)⟩, fun hm => ?_⟩
              exfalso
              apply hbd
              rw [List.filterMap_eq_nil_iff]
              intro d hd
              have hm2 : ∀ x ∈ v.elems, bad_weekly_entry x = true := by
                push_neg at hcond
                simp [malformed_data, hs, hload, hcond.1, hcond.2] at hm
                exact hm
              have hbad := hm2 d hd
              exact Option.isNone_iff_eq_none.mp hbad
  · rcases rd with _ | s
    · refine ⟨⟨"RRULE:FREQ=MONTHLY", rfl, by decide⟩, fun h => ?_⟩
      simp [malformed_data] at h
    · by_cases hs : s = ""
      · subst hs
        exact ⟨⟨"RRULE:FREQ=MONTHLY", rfl, by decide⟩, fun _ => rfl⟩
      · cases hload : loads s with
        | error e =>
          have hb : build_google_calendar_recurrence loads (some "monthly") (some s)
              = some ["RRULE:FREQ=MONTHLY"] := by
            simp [build_google_calendar_recurrence, hs, hload]
          exact ⟨⟨"RRULE:FREQ=MONTHLY", hb, by decide⟩, fun _ => hb⟩
        | ok v =>
          by_cases hcond : v.isArr = false ∨ v.elems = []
          · have hb : build_google_calendar_recurrence loads (some "monthly") (some s)
                = some ["RRULE:FREQ=MONTHLY"] := by
              simp [build_google_calendar_recurrence, hs, hload, hcond]
            exact ⟨⟨"RRULE:FREQ=MONTHLY", hb, by decide⟩, fun _ => hb⟩
          · by_cases hbd : v.elems.filterMap
                (fun d => match pyInt d with
                  | some n => if 1 ≤ n ∧ n ≤ 31 then some (toString n) else none
                  | none => none) = []
            · have hb : build_google_calendar_recurrence loads (some "monthly") (some s)
                  = some ["RRULE:FREQ=MONTHLY"] := by
                simp [build_google_calendar_recurrence, hs, hload, hcond, hbd]
              exact ⟨⟨"RRULE:FREQ=MONTHLY", hb, by decide⟩, fun _ => hb⟩
            · have hb : build_google_calendar_recurrence loads (some "monthly") (some s)
                  = some ["RRULE:FREQ=MONTHLY;BYMONTHDAY=" ++ join_sep ","
                      (v.elems.filterMap (fun d => match pyInt d with
                        | some n => if 1 ≤ n ∧ n ≤ 31 then some (toString n) else none
                        | none => none))] := by
                simp [build_google_calendar_recurrence, hs, hload, hcond, hbd]
              refine ⟨⟨_, hb, str_append_ne_empty _ _ (by decide)⟩, fun hm => ?_⟩
              exfalso
              apply hbd
              rw [List.filterMap_eq_nil_iff]
              intro d hd
              have hm2 : ∀ x ∈ v.elems, bad_monthly_entry x = true := by
                push_neg at hcond
                simp [malformed_data, hs, hload, hcond.1, hcond.2] at hm
                exact hm
              have hbad := hm2 d hd
              unfold bad_monthly_entry at hbad
              cases hpi : pyInt d with
              | none => rfl
              | some n =>
                rw [hpi] at hbad
                simp only [decide_eq_true_eq, Bool.or_eq_true] at hbad
                show (if 1 ≤ n ∧ n ≤ 31 then some (toString n) else none) = none
                rw [if_neg ?_]
                rintro ⟨hge, hle⟩
                rcases hbad with hlt | hgt
                · omega
                · omega

/-- Claim C7 witness. -/
theorem wit_C7_recurrence_total_and_default :
    malformed_data c7_loads "monthly" (some "x") = true ∧
    (∃ r, build_google_calendar_recurrence c7_loads (some "monthly") (some "x")
      = some [r] ∧ r ≠ "") ∧
    build_google_calendar_recurrence c7_loads (some "monthly") (some "x")
      = some [unscoped_rule "monthly"] :=
  ⟨by decide,
   (thm_C7_recurrence_total_and_default c7_loads "monthly" (some "x")
     (by decide)).1,
   (thm_C7_recurrence_total_and_default c7_loads "monthly" (some "x")
     (by decide)).2 (by decide)⟩

/-- split_scheme finds the first colon-slash-slash marker. -/
theorem split_scheme_append (sch rest : List Char) (hs : ∀ c ∈ sch, c ≠ ':') :
    split_scheme (sch ++ ':' :: '/' :: '/' :: rest) = some (sch, rest) := by
  induction sch with
  | nil =>
    show split_scheme (':' :: '/' :: '/' :: rest) = some ([], rest)
    unfold split_scheme
    rw [if_pos ⟨rfl, rfl⟩]
    rfl
  | cons c cs ih =>
    show split_scheme (c :: (cs ++ ':' :: '/' :: '/' :: rest)) = some (c :: cs, rest)
    unfold split_scheme
    rw [if_neg ?_]
    · rw [ih fun x hx => hs x (List.mem_cons_of_mem c hx)]
      rfl
    · rintro ⟨hc, _⟩
      exact hs c (List.mem_cons_self c cs) hc

/-- takeWhile over a slash-free prefix stops exactly at the first slash. -/
theorem takeWhile_not_slash (host path : List Char) (hh : ∀ c ∈ host, c ≠ '/') :
    (host ++ '/' :: path).takeWhile (fun c => c ≠ '/') = host := by
  induction host with
  | nil => simp [List.takeWhile]
  | cons c cs ih =>
    have hc : c ≠ '/' := hh c (List.mem_cons_self c cs)
    show (c :: (cs ++ '/' :: path)).takeWhile (fun c => c ≠ '/') = c :: cs
    have ih2 := ih fun x hx => hh x (List.mem_cons_of_mem c hx)
    rw [List.takeWhile_cons]
    simp [hc]
    simpa using ih2
  
/-- The base-url extraction returns exactly scheme and host on a conventional
hierarchical absolute URL. -/
theorem py_base_url_correct (sch host path : String)
    (hs : ∀ c ∈ sch.data, c ≠ ':') (hh : ∀ c ∈ host.data, c ≠ '/') :
    py_base_url (sch ++ "://" ++ host ++ "/" ++ path) = sch ++ "://" ++ host := by
  unfold py_base_url
  have hd : (sch ++ "://" ++ host ++ "/" ++ path).data
      = sch.data ++ ':' :: '/' :: '/' :: (host.data ++ '/' :: path.data) := by
    simp [String.data_append]
  rw [hd, split_scheme_append _ _ hs]
  show (⟨sch.data⟩ : String) ++ "://" ++
    (⟨(host.data ++ '/' :: path.data).takeWhile (fun c => c ≠ '/')⟩ : String)
      = sch ++ "://" ++ host
  rw [takeWhile_not_slash _ _ hh]

/-- Every calendar extracted from relative, non-empty hrefs carries the
absolute URL formed by prefixing the home's scheme and host. -/
theorem mem_extract_calendars (home : String) (rs : List DavResponse)
    (hrel : ∀ r ∈ rs, ∀ txt, r.hrefElem = some txt →
      ∃ h, txt = some h ∧ h ≠ "" ∧ py_startswith "http" h = false) :
    ∀ c ∈ extract_calendars home rs, ∃ r ∈ rs, ∃ h,
      r.hrefElem = some (some h) ∧ h ≠ "" ∧ py_startswith "http" h = false ∧
      c.href = some (py_base_url home ++ h) := by
  intro c hc
  unfold extract_calendars at hc
  rw [List.mem_filterMap] at hc
  obtain ⟨r, hr, hf⟩ := hc
  cases he : r.hrefElem with
  | none =>
    rw [he] at hf
    simp at hf
  | some txt =>
    obtain ⟨h, htxt, hne, hhttp⟩ := hrel r hr txt he
    subst htxt
    rw [he] at hf
    by_cases hcal : r.resourcetypeHasCalendar.getD false = true
    · simp only [hcal, if_true] at hf
      refine ⟨r, hr, h, he, hne, hhttp, ?_⟩
      cases Option.some.inj hf
      simp [hne, hhttp]
    · simp only [hcal, if_false] at hf
      simp at hf

/-- Inversion of a successful discovery run. -/
theorem discover_ok_calendars (w : DiscoveryResponses) (res : DiscoveryResult)
    (hok : discover_caldav_server w = .ok res) :
    res.calendars = extract_calendars res.calendar_home w.elems := by
  unfold discover_caldav_server at hok
  split at hok <;> try simp at hok
  split at hok <;> try simp at hok
  split at hok <;> try simp at hok
  split at hok <;> try simp at hok
  split at hok <;> try simp at hok
  split at hok <;> try simp at hok
  split at hok <;> try simp at hok
  cases hok
  rfl

/-- Claim C9: on every successful three-step discovery run whose listed
child resources carry relative (non-empty, not http-prefixed) hrefs, every
returned calendar's href is the absolute URL formed by prefixing the
calendar home's scheme and host to the child's relative href; and the
scheme-and-host extraction is exact on conventional absolute URLs. -/
theorem thm_C9_discovery_absolute_hrefs
    (w : DiscoveryResponses) (res : DiscoveryResult)
    (hok : discover_caldav_server w = .ok res)
    (hrel : ∀ r ∈ w.elems, ∀ txt, r.hrefElem = some txt →
      ∃ h, txt = some h ∧ h ≠ "" ∧ py_startswith "http" h = false) :
    (∀ c ∈ res.calendars, ∃ r ∈ w.elems, ∃ h,
      r.hrefElem = some (some h) ∧ h ≠ "" ∧ py_startswith "http" h = false ∧
      c.href = some (py_base_url res.calendar_home ++ h)) ∧
    (∀ sch host path : String, (∀ ch ∈ sch.data, ch ≠ ':') →
      (∀ ch ∈ host.data, ch ≠ '/') →
      py_base_url (sch ++ "://" ++ host ++ "/" ++ path) = sch ++ "://" ++ host) := by
  refine ⟨?_, fun sch host path hs hh => py_base_url_correct sch host path hs hh⟩
  rw [discover_ok_calendars w res hok]
  exact mem_extract_calendars res.calendar_home w.elems hrel

/-- Claim C9 witness. -/
theorem wit_C9_discovery_absolute_hrefs :
    discover_caldav_server c9_responses = .ok c9_result ∧
    (∀ c ∈ c9_result.calendars, ∃ r ∈ c9_responses.elems, ∃ h,
      r.hrefElem = some (some h) ∧ h ≠ "" ∧ py_startswith "http" h = false ∧
      c.href = some (py_base_url c9_result.calendar_home ++ h)) := by
  refine ⟨rfl, ?_⟩
  have hrel : ∀ r ∈ c9_responses.elems, ∀ txt, r.hrefElem = some txt →
      ∃ h, txt = some h ∧ h ≠ "" ∧ py_startswith "http" h = false := by
    intro r hr txt htxt
    simp only [c9_responses, List.mem_cons, List.not_mem_nil, or_false] at hr
    rcases hr with rfl | rfl
    · exact ⟨"/1234/calendars/home/", (Option.some.inj htxt).symm, by decide, by decide⟩
    · exact ⟨"/1234/calendars/work/", (Option.some.inj htxt).symm, by decide, by decide⟩
  exact (thm_C9_discovery_absolute_hrefs c9_responses c9_result rfl hrel).1

/-- Claim C10 counterexample: with no explicit URL and a non-empty discovered
list whose (sport-named) calendar carries no href text, the connect request
still fails with the 400 error, so "fails only when the discovered list is
empty" does not hold as stated. -/
theorem cex_C10_connect_fails_on_nonempty_list :
    connect_apple_calendar_choice none [⟨none, some "sport"⟩] =
      .error "HTTPException 400: Aucun calendrier trouvé dans votre compte iCloud" ∧
    ([⟨none, some "sport"⟩] : List DiscoveredCal) ≠ [] := by
  refine ⟨rfl, by simp⟩

/-- The sport filter of the connect route agrees with the claim-side filter
on calendars whose names and hrefs are present. -/
theorem filterE_sport_map (cals : List (String × String)) :
    filterE (fun c => name_is_sport c.name)
        (cals.map fun c => (⟨some c.2, some c.1⟩ : DiscoveredCal))
      = .ok ((cals.filter fun c => sport_name_b c.1).map
          fun c => (⟨some c.2, some c.1⟩ : DiscoveredCal)) := by
  induction cals with
  | nil => rfl
  | cons a t ih =>
    have hp : name_is_sport ((⟨some a.2, some a.1⟩ : DiscoveredCal).name)
        = .ok (sport_name_b a.1) := rfl
    rw [List.map_cons]
    unfold filterE
    rw [hp, ih, List.filter_cons]
    by_cases hb : sport_name_b a.1 = true
    · simp [hb]
    · simp [hb]

/-- The non-school filter of the connect route agrees with the claim-side
filter on calendars whose names and hrefs are present. -/
theorem filterE_school_map (cals : List (String × String)) :
    filterE (fun c => name_not_school c.name)
        (cals.map fun c => (⟨some c.2, some c.1⟩ : DiscoveredCal))
      = .ok ((cals.filter fun c => !school_name_b c.1).map
          fun c => (⟨some c.2, some c.1⟩ : DiscoveredCal)) := by
  induction cals with
  | nil => rfl
  | cons a t ih =>
    have hp : name_not_school ((⟨some a.2, some a.1⟩ : DiscoveredCal).name)
        = .ok (!school_name_b a.1) := rfl
    rw [List.map_cons]
    unfold filterE
    rw [hp, ih, List.filter_cons]
    by_cases hb : school_name_b a.1 = true
    · simp [hb]
    · simp [hb]

/-- Claim C10 (corrected): when every discovered calendar carries a display
name and a non-empty href, connecting without an explicit URL on a non-empty
list stores exactly the calendar chosen by the claimed heuristic (first
sport-matching name, else first non-school name, else first calendar); a
supplied non-empty URL short-circuits the heuristic, and with no URL and an
empty discovered list the request fails with the 400 error. -/
theorem thm_C10_connect_selection_heuristic
    (cals : List (String × String)) (hne : cals ≠ [])
    (hhref : ∀ c ∈ cals, c.2 ≠ "") :
    (∃ u, claim_selected_url cals = some u ∧
      connect_apple_calendar_choice none
        (cals.map fun c => (⟨some c.2, some c.1⟩ : DiscoveredCal)) = .ok u) ∧
    (∀ u : String, u ≠ "" → ∀ ds : List DiscoveredCal,
      connect_apple_calendar_choice (some u) ds = .ok u) ∧
    connect_apple_calendar_choice none ([] : List DiscoveredCal) =
      .error "HTTPException 400: Aucun calendrier trouvé dans votre compte iCloud" := by
  refine ⟨?_, ?_, rfl⟩
  · unfold connect_apple_calendar_choice
    rw [if_pos ⟨rfl, fun hmap => hne (List.map_eq_nil_iff.mp hmap)⟩]
    rw [filterE_sport_map]
    cases hfs : cals.filter (fun c => sport_name_b c.1) with
    | cons c rest =>
      have hcmem : c ∈ cals := by
        apply List.mem_of_mem_filter (p := fun c => sport_name_b c.1)
        rw [hfs]
        exact List.mem_cons_self c rest
      have hc2 : c.2 ≠ "" := hhref c hcmem
      refine ⟨c.2, ?_, ?_⟩
      · unfold claim_selected_url
        rw [hfs]
      · show (match (Except.ok (some c.2) : Except PyErr (Option String)) with
          | Except.error e => Except.error e
          | Except.ok cu => if osTruthy cu then Except.ok (cu.getD "") else Except.error
              "HTTPException 400: Aucun calendrier trouvé dans votre compte iCloud") = .ok c.2
        simp [osTruthy, hc2]
    | nil =>
      rw [List.map_nil]
      rw [filterE_school_map]
      cases hns : cals.filter (fun c => !school_name_b c.1) with
      | cons c rest =>
        have hcmem : c ∈ cals := by
          apply List.mem_of_mem_filter (p := fun c => !school_name_b c.1)
          rw [hns]
          exact List.mem_cons_self c rest
        have hc2 : c.2 ≠ "" := hhref c hcmem
        refine ⟨c.2, ?_, ?_⟩
        · unfold claim_selected_url
          rw [hfs, hns]
        · show (match (Except.ok (some c.2) : Except PyErr (Option String)) with
            | Except.error e => Except.error e
            | Except.ok cu => if osTruthy cu then Except.ok (cu.getD "") else Except.error
                "HTTPException 400: Aucun calendrier trouvé dans votre compte iCloud") = .ok c.2
          simp [osTruthy, hc2]
      | nil =>
        rw [List.map_nil]
        obtain ⟨c, rest, hcs⟩ := List.exists_cons_of_ne_nil hne
        have hc2 : c.2 ≠ "" := hhref c (by rw [hcs]; exact List.mem_cons_self c rest)
        refine ⟨c.2, ?_, ?_⟩
        · unfold claim_selected_url
          rw [hfs, hns, hcs]
        · rw [hcs, List.map_cons]
          show (match (Except.ok (some c.2) : Except PyErr (Option String)) with
            | Except.error e => Except.error e
            | Except.ok cu => if osTruthy cu then Except.ok (cu.getD "") else Except.error
                "HTTPException 400: Aucun calendrier trouvé dans votre compte iCloud") = .ok c.2
          simp [osTruthy, hc2]
  · intro u hu ds
    unfold connect_apple_calendar_choice
    rw [if_neg ?_]
    · show (match (Except.ok (some u) : Except PyErr (Option String)) with
        | Except.error e => Except.error e
        | Except.ok cu => if osTruthy cu then Except.ok (cu.getD "") else Except.error
            "HTTPException 400: Aucun calendrier trouvé dans votre compte iCloud") = .ok u
      simp [osTruthy, hu]
    · rintro ⟨hfalse, _⟩
      simp [osTruthy, hu] at hfalse

/-- Claim C10 witness. -/
theorem wit_C10_connect_selection_heuristic :
    ([("École", "https://x/ecole/"), ("Sport", "https://x/sport/")] :
      List (String × String)) ≠ [] ∧
    ((∃ u, claim_selected_url
        [("École", "https://x/ecole/"), ("Sport", "https://x/sport/")] = some u ∧
      connect_apple_calendar_choice none
        ([("École", "https://x/ecole/"), ("Sport", "https://x/sport/")].map
          fun c => (⟨some c.2, some c.1⟩ : DiscoveredCal)) = .ok u) ∧
    (∀ u : String, u ≠ "" → ∀ ds : List DiscoveredCal,
      connect_apple_calendar_choice (some u) ds = .ok u) ∧
    connect_apple_calendar_choice none ([] : List DiscoveredCal) =
      .error "HTTPException 400: Aucun calendrier trouvé dans votre compte iCloud") :=
  ⟨by decide,
   thm_C10_connect_selection_heuristic
     [("École", "https://x/ecole/"), ("Sport", "https://x/sport/")]
     (by decide) (by decide)⟩
